import Mathlib

/-!
Shallow embedding of the request-to-command reconciliation core of
pinterest/gprofiler-performance-studio, covering:

* `src/gprofiler-dev/gprofiler_dev/postgres/db_manager.py` — the persistence
  operations on the `ProfilingRequests`, `ProfilingCommands`,
  `ProfilingExecutions` and `HostHeartbeats` tables, and
* `src/gprofiler/backend/routers/metrics_routes.py` — the
  `/profile_request`, `/heartbeat` and `/command_completion` handlers.

Tables are modelled as lists of rows; the SQL `UNIQUE` / `PRIMARY KEY`
constraints on `(hostname, service_name)` (commands, heartbeats) and
`(command_id, hostname)` (executions) are maintained by the upsert
operations and assumed, where needed, through explicit hypotheses.
`CURRENT_TIMESTAMP` is modelled by an explicit `now : Nat` argument.

JSONB dictionaries (`combined_config`) are modelled by the `Config`
structure; a key that is absent and a key that is present with JSON
`null` are both modelled as `none`, which is faithful to every read the
embedded code performs (all reads go through Python `dict.get` followed
by truthiness tests, which treat the two identically).
-/

/-- Process id; JSON integers. -/
abbrev Pid := Int

/-- The `profilingcommandstatus` enum of the `ProfilingCommands` table. -/
inductive CmdStatus where
  | pending
  | sent
  | completed
  | failed
deriving DecidableEq, Repr

/-- Rendering of a `CmdStatus` as the SQL enum literal. -/
def CmdStatus.toStr : CmdStatus → String
  | .pending => "pending"
  | .sent => "sent"
  | .completed => "completed"
  | .failed => "failed"

/-- The `combined_config` JSONB dictionary of a profiling command, and also
the per-request config dictionaries built by
`create_or_update_profiling_command` (db_manager.py:1067-1084). Each field is
an `Option`: `none` models both an absent key and a key bound to JSON null. -/
structure Config where
  command_type : Option String := none
  continuous : Option Bool := none
  duration : Option Int := none
  frequency : Option Int := none
  profiling_mode : Option String := none
  pids : Option (List Pid) := none
  additional_args : Option (List (String × String)) := none
  stop_level : Option String := none
deriving DecidableEq, Repr

/-- Python truthiness of an optional integer (`None` and `0` are falsy). -/
def truthyInt : Option Int → Bool
  | none => false
  | some n => n != 0

/-- Python truthiness of an optional string (`None` and `""` are falsy). -/
def truthyStr : Option String → Bool
  | none => false
  | some s => s != ""

/-- Python truthiness of an optional list (`None` and `[]` are falsy). -/
def truthyList {α : Type} : Option (List α) → Bool
  | none => false
  | some l => !l.isEmpty

/-- A row of the `ProfilingRequests` table, restricted to the columns the
embedded operations read (db_manager.py:615-623, 1052-1056). -/
structure RequestRow where
  request_id : String
  request_type : String
  service_name : String
  continuous : Bool
  duration : Option Int
  frequency : Option Int
  profiling_mode : Option String
  target_hostnames : Option (List String)
  pids : Option (List Pid)
  additional_args : Option (List (String × String))
  status : String
  completed_at : Option Nat
deriving DecidableEq, Repr

/-- A row of the `ProfilingCommands` table (schema at spec §6; populated by
db_manager.py:1126-1143, 1216-1234, 1299-1317). -/
structure CommandRow where
  command_id : String
  hostname : String
  service_name : String
  command_type : String
  request_ids : List String
  combined_config : Config
  status : CmdStatus
  created_at : Nat
  sent_at : Option Nat := none
  completed_at : Option Nat := none
  execution_time : Option Int := none
  error_message : Option String := none
  results_path : Option String := none
deriving DecidableEq, Repr

/-- A row of the `ProfilingExecutions` table, `PRIMARY KEY (command_id,
hostname)` (db_manager.py:714-723, 845-854). The status column is the
`ProfilingRequestStatus` enum, kept as a string here because the execution
status domain ("assigned", "completed", "failed") differs from `CmdStatus`. -/
structure ExecutionRow where
  command_id : String
  hostname : String
  profiling_request_id : String
  status : String
  started_at : Nat
  completed_at : Option Nat := none
  error_message : Option String := none
  execution_time : Option Int := none
  results_path : Option String := none
deriving DecidableEq, Repr

/-- A row of the `HostHeartbeats` table, `UNIQUE (hostname, service_name)`
(db_manager.py:882-898). -/
structure HeartbeatRow where
  hostname : String
  service_name : String
  ip_address : String
  last_command_id : Option String
  status : String
  heartbeat_timestamp : Nat
deriving DecidableEq, Repr

/-- The database state seen by the reconciliation core, plus the in-memory
`request_host_pid_mappings` cache of the DBManager singleton
(db_manager.py:646-653). -/
structure DBState where
  requests : List RequestRow
  commands : List CommandRow
  executions : List ExecutionRow
  heartbeats : List HeartbeatRow
  host_pid_mappings : List (String × List (String × List Pid))
deriving DecidableEq, Repr

/-- Lookup in an association list by string key (Python `dict.get`). -/
def assocGet {α : Type} (l : List (String × α)) (k : String) : Option α :=
  (l.find? (fun p => p.1 == k)).map (·.2)

/-- Shallow dict merge `{**existing, **new}`: keys of `existing` first with
`new_config`'s value winning on collision, then the keys only in `new`. -/
def dictMerge (e n : List (String × String)) : List (String × String) :=
  e.map (fun p => match assocGet n p.1 with
    | some v => (p.1, v)
    | none => p) ++ n.filter (fun p => (assocGet e p.1).isNone)

/-- Deduplicating union of two PID lists. The Python code forms
`list(set(existing) | set(new))` (db_manager.py:1188-1190), whose element
order is unspecified; we canonicalize as the first list followed by the new
elements of the second, with duplicates removed. -/
def pidUnion (e n : List Pid) : List Pid :=
  (e ++ n.filter (fun p => !e.contains p)).dedup

/-- Embedding of `DBManager._merge_profiling_configs`
(db_manager.py:1157-1205). Field-by-field translation of the Python dict
operations, with Python truthiness made explicit. -/
def mergeProfilingConfigs (existing_config new_config : Config) : Config :=
  -- merged = existing_config.copy()
  let merged := existing_config
  -- merged["command_type"] = new_config["command_type"]
  let merged := { merged with command_type := new_config.command_type }
  -- merged["continuous"] = existing.get("continuous", False) or new.get("continuous", False)
  let merged := { merged with
    continuous := some ((existing_config.continuous.getD false) || (new_config.continuous.getD false)) }
  -- duration: max when both truthy, else the new one when truthy
  let maxDuration := some (max (new_config.duration.getD 0) (existing_config.duration.getD 0))
  let merged :=
    if truthyInt new_config.duration && truthyInt existing_config.duration then
      { merged with duration := maxDuration }
    else if truthyInt new_config.duration then
      { merged with duration := new_config.duration }
    else merged
  -- frequency: max when both truthy, else the new one when truthy
  let maxFrequency := some (max (new_config.frequency.getD 0) (existing_config.frequency.getD 0))
  let merged :=
    if truthyInt new_config.frequency && truthyInt existing_config.frequency then
      { merged with frequency := maxFrequency }
    else if truthyInt new_config.frequency then
      { merged with frequency := new_config.frequency }
    else merged
  -- profiling_mode: latest wins when truthy
  let merged :=
    if truthyStr new_config.profiling_mode then
      { merged with profiling_mode := new_config.profiling_mode }
    else merged
  -- pids: set union, kept only when non-empty
  let combined_pids := pidUnion (existing_config.pids.getD []) (new_config.pids.getD [])
  let merged :=
    if !combined_pids.isEmpty then { merged with pids := some combined_pids } else merged
  -- additional_args: shallow dict merge, new wins
  let mergedArgs :=
    some (dictMerge (existing_config.additional_args.getD []) (new_config.additional_args.getD []))
  let merged :=
    if truthyList new_config.additional_args then
      if truthyList existing_config.additional_args then
        { merged with additional_args := mergedArgs }
      else { merged with additional_args := new_config.additional_args }
    else merged
  -- stop_level: latest wins when truthy
  if truthyStr new_config.stop_level then
    { merged with stop_level := new_config.stop_level }
  else merged

/-- Embedding of `DBManager.get_current_profiling_command`
(db_manager.py:1335-1351): the single `ProfilingCommands` row for
`(hostname, service_name)` (the table's UNIQUE constraint makes the SQL
`ORDER BY created_at DESC LIMIT 1` select that row). -/
def getCurrentProfilingCommand (s : DBState) (hostname service_name : String) :
    Option CommandRow :=
  s.commands.find? (fun c => c.hostname == hostname && c.service_name == service_name)

/-- The SELECT at db_manager.py:1088-1101 inside
`create_or_update_profiling_command`: it lists exactly the columns
`command_id, combined_config, request_ids` of the row for
`(hostname, service_name)` with `status = 'pending'`. The driver returns a
dict keyed by the selected columns, so the dict carries no "status" key;
`status_key` models the result of `dict.get("status")` on it and is
therefore `none`. -/
structure PendingCmdSelection where
  command_id : String
  combined_config : Config
  request_ids : List String
  status_key : Option String
deriving DecidableEq, Repr

/-- Run the existing-command SELECT of `create_or_update_profiling_command`
(db_manager.py:1088-1101). -/
def existingPendingCommand (s : DBState) (hostname service_name : String) :
    Option PendingCmdSelection :=
  (s.commands.find? (fun c =>
      c.hostname == hostname && c.service_name == service_name && c.status == .pending)).map
    (fun c => ⟨c.command_id, c.combined_config, c.request_ids, none⟩)

/-- The upsert at db_manager.py:1126-1154: `INSERT ... ON CONFLICT (hostname,
service_name) DO UPDATE`. The DO UPDATE branch sets only `command_id,
command_type, request_ids, combined_config, status, created_at`; the other
columns of the existing row are retained. -/
def upsertCommandRow (s : DBState) (command_id hostname service_name command_type : String)
    (request_ids : List String) (combined_config : Config) (now : Nat) : DBState :=
  if s.commands.any (fun c => c.hostname == hostname && c.service_name == service_name) then
    { s with commands := s.commands.map (fun c =>
        if c.hostname == hostname && c.service_name == service_name then
          { c with
            command_id := command_id
            command_type := command_type
            request_ids := request_ids
            combined_config := combined_config
            status := .pending
            created_at := now }
        else c) }
  else
    { s with commands := s.commands ++
        [{ command_id := command_id
           hostname := hostname
           service_name := service_name
           command_type := command_type
           request_ids := request_ids
           combined_config := combined_config
           status := .pending
           created_at := now }] }

/-- Embedding of `DBManager._get_host_pid_mapping` (db_manager.py:651-653):
lookup in the in-memory `request_host_pid_mappings` cache, defaulting to the
empty mapping. -/
def getHostPidMapping (s : DBState) (request_id : String) : List (String × List Pid) :=
  (assocGet s.host_pid_mappings request_id).getD []

/-- Embedding of `DBManager.get_active_hosts` (db_manager.py:926-944):
`HostHeartbeats` rows with `status = 'active'` and a heartbeat younger than
10 minutes (600 seconds), optionally filtered by service (the Python guard
`if service_name:` is a truthiness test on the string). The SQL orders by
`heartbeat_timestamp DESC`; the order is irrelevant to the properties proved
here, so rows are kept in table order. -/
def getActiveHosts (s : DBState) (service_name : String) (now : Nat) : List HeartbeatRow :=
  let live := s.heartbeats.filter (fun h =>
    h.status == "active" && now < h.heartbeat_timestamp + 600)
  if service_name != "" then live.filter (fun h => h.service_name == service_name) else live

/-- Embedding of the single-host body of
`DBManager.create_or_update_profiling_command` (db_manager.py:1050-1155),
i.e. the path taken when `hostname is not None`. Returns the new state and
the Python return value. -/
def createOrUpdateProfilingCommandForHost (s : DBState)
    (command_id hostname service_name command_type new_request_id : String)
    (stop_level : Option String) (now : Nat) : DBState × Bool :=
  -- SELECT continuous, duration, frequency, profiling_mode, pids, additional_args
  -- FROM ProfilingRequests WHERE request_id = new_request_id  (db_manager.py:1052-1057)
  match s.requests.find? (fun r => r.request_id == new_request_id) with
  | none => (s, false)
  | some request_result =>
    -- host-specific PIDs from the in-memory mapping (db_manager.py:1062-1064)
    let host_specific_pids := (assocGet (getHostPidMapping s new_request_id) hostname).getD []
    -- base configuration from the new request (db_manager.py:1066-1074)
    let new_config : Config :=
      { command_type := some command_type
        continuous := some request_result.continuous
        duration := request_result.duration
        frequency := request_result.frequency
        profiling_mode := request_result.profiling_mode
        additional_args := request_result.additional_args }
    -- "if stop_level:" (db_manager.py:1076-1078)
    let new_config :=
      if truthyStr stop_level then { new_config with stop_level := stop_level } else new_config
    -- host-specific PIDs if available, else the request's global PIDs
    -- (db_manager.py:1080-1084); both guards are Python truthiness tests
    let new_config :=
      if !host_specific_pids.isEmpty then { new_config with pids := some host_specific_pids }
      else if truthyList request_result.pids then { new_config with pids := request_result.pids }
      else new_config
    -- existing-command lookup and merge condition (db_manager.py:1086-1123):
    -- `existing_command.get("status")` is `none` because the SELECT does not
    -- list the status column, so the merge branch is never taken
    let existing_command := existingPendingCommand s hostname service_name
    let merged :=
      match existing_command with
      | some row =>
        if row.status_key == some "pending" || row.status_key == some "sent" then
          some (mergeProfilingConfigs row.combined_config new_config,
                row.request_ids ++ [new_request_id])
        else none
      | none => none
    let (final_config, final_request_ids) :=
      match merged with
      | some m => m
      | none => (new_config, [new_request_id])
    (upsertCommandRow s command_id hostname service_name command_type
      final_request_ids final_config now, true)

/-- Fold of the fan-out loop at db_manager.py:1041-1049: one recursive call of
`create_or_update_profiling_command` per active host, `success` being the
conjunction of the per-host results. -/
def createOrUpdateForHosts (s : DBState)
    (command_id service_name command_type new_request_id : String)
    (stop_level : Option String) (now : Nat) :
    List String → Bool → DBState × Bool
  | [], success => (s, success)
  | h :: hs, success =>
    let (s', result) :=
      createOrUpdateProfilingCommandForHost s command_id h service_name command_type
        new_request_id stop_level now
    createOrUpdateForHosts s' command_id service_name command_type new_request_id
      stop_level now hs (success && result)

/-- Embedding of `DBManager.create_or_update_profiling_command`
(db_manager.py:1031-1155). With `hostname = none` the command is fanned out,
with the same `command_id`, to every active host of the service
(db_manager.py:1041-1049). -/
def createOrUpdateProfilingCommand (s : DBState) (command_id : String)
    (hostname : Option String) (service_name command_type new_request_id : String)
    (stop_level : Option String) (now : Nat) : DBState × Bool :=
  match hostname with
  | some h =>
    createOrUpdateProfilingCommandForHost s command_id h service_name command_type
      new_request_id stop_level now
  | none =>
    let active_hosts := (getActiveHosts s service_name now).map (·.hostname)
    createOrUpdateForHosts s command_id service_name command_type new_request_id
      stop_level now active_hosts true

/-- Embedding of `DBManager.create_stop_command_for_host`
(db_manager.py:1207-1247). The insert writes `request_ids =
ARRAY[request_id]` and `combined_config = {"stop_level": stop_level}`; the
conflict branch appends `request_id` to the existing `request_ids` array and
replaces `combined_config` wholesale. -/
def createStopCommandForHost (s : DBState)
    (command_id hostname service_name request_id : String)
    (stop_level : String := "host") (now : Nat := 0) : DBState × Bool :=
  let combined_config : Config := { stop_level := some stop_level }
  if s.commands.any (fun c => c.hostname == hostname && c.service_name == service_name) then
    ({ s with commands := s.commands.map (fun c =>
        if c.hostname == hostname && c.service_name == service_name then
          { c with
            command_id := command_id
            command_type := "stop"
            request_ids := c.request_ids ++ [request_id]
            combined_config := combined_config
            status := .pending
            created_at := now }
        else c) }, true)
  else
    ({ s with commands := s.commands ++
        [{ command_id := command_id
           hostname := hostname
           service_name := service_name
           command_type := "stop"
           request_ids := [request_id]
           combined_config := combined_config
           status := .pending
           created_at := now }] }, true)

/-- Python runtime errors surfaced by the embedded handlers. `typeError`
models `TypeError` (e.g. `pid not in None`), `httpException` a raised
`fastapi.HTTPException`. Both derive from `Exception` in Python, so both are
caught by a bare `except Exception`. -/
inductive PyErr where
  | typeError (msg : String)
  | httpException (code : Nat) (detail : String)
deriving DecidableEq, Repr

/-- Embedding of `DBManager.handle_process_level_stop`
(db_manager.py:1249-1333). When the current command is a `start` with a
non-empty PID list, the comprehension `[pid for pid in current_pids if pid
not in pids_to_stop]` evaluates `pid not in pids_to_stop`; with
`pids_to_stop = None` this raises `TypeError` ("argument of type 'NoneType'
is not iterable"), modelled as `.error`. -/
def handleProcessLevelStop (s : DBState)
    (command_id hostname service_name : String) (pids_to_stop : Option (List Pid))
    (request_id : String) (stop_level : String := "process") (now : Nat := 0) :
    Except PyErr (DBState × Bool) :=
  let current_command := getCurrentProfilingCommand s hostname service_name
  let startBranch : Option (Except PyErr (DBState × Bool)) :=
    match current_command with
    | some cur =>
      if cur.command_type == "start" then
        let current_pids := cur.combined_config.pids.getD []
        if !current_pids.isEmpty then
          some (match pids_to_stop with
            | none => Except.error (PyErr.typeError "argument of type 'NoneType' is not iterable")
            | some stop_pids =>
              let remaining_pids := current_pids.filter (fun pid => !stop_pids.contains pid)
              if remaining_pids.length < 1 then
                -- convert to a host-level stop (db_manager.py:1268-1270)
                Except.ok (createStopCommandForHost s command_id hostname service_name
                  request_id "host" now)
              else
                -- UPDATE ... jsonb_set pids and stop_level, append request_id,
                -- reset to pending (db_manager.py:1271-1296)
                Except.ok ({ s with commands := s.commands.map (fun c =>
                  if c.hostname == hostname && c.service_name == service_name then
                    { c with
                      command_id := command_id
                      combined_config := { c.combined_config with
                        pids := some remaining_pids
                        stop_level := some stop_level }
                      request_ids := c.request_ids ++ [request_id]
                      status := .pending
                      created_at := now }
                  else c) }, true))
        else none
      else none
    | none => none
  match startBranch with
  | some r => r
  | none =>
    -- default: upsert a stop command carrying the specified PIDs
    -- (db_manager.py:1298-1333); `"pids": pids_to_stop` may be JSON null
    let combined_config : Config := { stop_level := some stop_level, pids := pids_to_stop }
    if s.commands.any (fun c => c.hostname == hostname && c.service_name == service_name) then
      Except.ok ({ s with commands := s.commands.map (fun c =>
          if c.hostname == hostname && c.service_name == service_name then
            { c with
              command_id := command_id
              command_type := "stop"
              request_ids := c.request_ids ++ [request_id]
              combined_config := combined_config
              status := .pending
              created_at := now }
          else c) }, true)
    else
      Except.ok ({ s with commands := s.commands ++
          [{ command_id := command_id
             hostname := hostname
             service_name := service_name
             command_type := "stop"
             request_ids := [request_id]
             combined_config := combined_config
             status := .pending
             created_at := now }] }, true)

/-- Embedding of `DBManager.mark_profiling_command_sent`
(db_manager.py:1407-1421): `UPDATE ProfilingCommands SET status = 'sent',
sent_at = now WHERE command_id = ... AND hostname = ...`; always returns
`True`. -/
def markProfilingCommandSent (s : DBState) (command_id hostname : String) (now : Nat) :
    DBState × Bool :=
  ({ s with commands := s.commands.map (fun c =>
      if c.command_id == command_id && c.hostname == hostname then
        { c with status := .sent, sent_at := some now }
      else c) }, true)

/-- Embedding of `DBManager.mark_profiling_request_assigned`
(db_manager.py:699-736): `INSERT INTO ProfilingExecutions ... ON CONFLICT
(command_id, hostname) DO UPDATE SET profiling_request_id, status =
'assigned', started_at = now`. -/
def markProfilingRequestAssigned (s : DBState) (request_id command_id hostname : String)
    (now : Nat) : DBState × Bool :=
  if s.executions.any (fun e => e.command_id == command_id && e.hostname == hostname) then
    ({ s with executions := s.executions.map (fun e =>
        if e.command_id == command_id && e.hostname == hostname then
          { e with profiling_request_id := request_id, status := "assigned", started_at := now }
        else e) }, true)
  else
    ({ s with executions := s.executions ++
        [{ command_id := command_id
           hostname := hostname
           profiling_request_id := request_id
           status := "assigned"
           started_at := now }] }, true)

/-- Embedding of `DBManager.update_profiling_command_status`
(db_manager.py:1423-1453): `UPDATE ProfilingCommands SET status, completed_at
(when terminal), execution_time, error_message, results_path WHERE command_id
= ... AND hostname = ...`. The status parameter comes from
`CommandCompletionRequest.status`, whose validator admits only "completed"
and "failed" (metrics_models.py:252-256), so it is typed `CmdStatus` here. -/
def updateProfilingCommandStatus (s : DBState) (command_id hostname : String)
    (status : CmdStatus) (execution_time : Option Int) (error_message : Option String)
    (results_path : Option String) (now : Nat) : DBState × Bool :=
  ({ s with commands := s.commands.map (fun c =>
      if c.command_id == command_id && c.hostname == hostname then
        { c with
          status := status
          completed_at :=
            if status == .completed || status == .failed then some now else c.completed_at
          execution_time := execution_time
          error_message := error_message
          results_path := results_path }
      else c) }, true)

/-- Embedding of `DBManager.update_profiling_execution_status`
(db_manager.py:834-867): `UPDATE ProfilingExecutions SET status,
completed_at, error_message, execution_time, results_path WHERE command_id =
... AND hostname = ...`. -/
def updateProfilingExecutionStatus (s : DBState) (command_id hostname status : String)
    (completed_at : Option Nat) (error_message : Option String)
    (execution_time : Option Int) (results_path : Option String) : DBState × Bool :=
  ({ s with executions := s.executions.map (fun e =>
      if e.command_id == command_id && e.hostname == hostname then
        { e with
          status := status
          completed_at := completed_at
          error_message := error_message
          execution_time := execution_time
          results_path := results_path }
      else e) }, true)

/-- Embedding of `DBManager.get_profiling_command_by_hostname`
(db_manager.py:1455-1495): the latest `ProfilingCommands` row for the
hostname across all services (`ORDER BY created_at DESC LIMIT 1`). Ties in
`created_at` are resolved by the SQL backend arbitrarily; the scan keeps the
first row with the strictly greatest `created_at`. -/
def getProfilingCommandByHostname (s : DBState) (hostname : String) : Option CommandRow :=
  (s.commands.filter (fun c => c.hostname == hostname)).foldl
    (fun best c =>
      match best with
      | none => some c
      | some b => if c.created_at > b.created_at then some c else best)
    none

/-- Embedding of `DBManager.validate_command_completion_eligibility`
(db_manager.py:1497-1533). The SQL full-outer-joins `ProfilingCommands` and
`ProfilingExecutions` on `(command_id, hostname)` and filters with
`COALESCE(pc.command_id, pe.command_id) = command_id AND pe.hostname =
hostname`; since `pe.hostname` must be non-null and equal, the result is
non-empty exactly when an executions row keyed `(command_id, hostname)`
exists, and `execution_status` is that row's status in every surviving join
row. The middle branch of the Python code (`execution_status is None`) is
unreachable for the same reason. -/
def validateCommandCompletionEligibility (s : DBState) (command_id hostname : String) :
    Bool × String :=
  match s.executions.find? (fun e => e.command_id == command_id && e.hostname == hostname) with
  | none =>
    (false, "Command " ++ command_id ++ " not found for host " ++ hostname)
  | some e =>
    if e.status != "assigned" then
      (false, "Command " ++ command_id ++ " for host " ++ hostname ++ " is in status '"
        ++ e.status ++ "', expected 'assigned'")
    else
      (true, "")

/-- The `status_priority` VALUES table of
`auto_update_profiling_request_status_by_request_ids`
(db_manager.py:772-785): completed 0, pending 1, sent 2, failed 3. -/
def statusValue : CmdStatus → Nat
  | .completed => 0
  | .pending => 1
  | .sent => 2
  | .failed => 3

/-- Inverse of `statusValue` (the join of `max_status` back onto
`status_priority`, db_manager.py:806-813). -/
def valueStatus : Nat → CmdStatus
  | 0 => .completed
  | 1 => .pending
  | 2 => .sent
  | _ => .failed

/-- The per-request priority maximum computed by the CTEs of
`auto_update_profiling_request_status_by_request_ids`
(db_manager.py:786-813): the max of `statusValue` over all commands whose
`request_ids` array contains the request, `none` when no command does (the
LEFT JOIN row with NULL command status is dropped by the inner JOIN onto
`status_priority`). -/
def derivedStatus (s : DBState) (request_id : String) : Option CmdStatus :=
  let vals := (s.commands.filter (fun c => c.request_ids.contains request_id)).map
    (fun c => statusValue c.status)
  match vals with
  | [] => none
  | v :: vs => some (valueStatus (vs.foldl Nat.max v))

/-- The `final_status` CTE rows that survive into the UPDATE's FROM clause
(db_manager.py:786-825): pairs of a request row in the given id list and its
derived status (requests without commands drop out). -/
def finalStatusRows (s : DBState) (request_ids : List String) :
    List (RequestRow × CmdStatus) :=
  s.requests.filterMap (fun pr =>
    if request_ids.contains pr.request_id then
      (derivedStatus s pr.request_id).map (fun st => (pr, st))
    else none)

/-- Embedding of `DBManager.auto_update_profiling_request_status_by_request_ids`
(db_manager.py:759-832). The UPDATE at db_manager.py:814-825 joins the target
table `ProfilingRequests` against `FROM ProfilingRequests pr JOIN
final_status fs ON pr.request_id = fs.request_id WHERE pr.request_id =
ANY(request_ids)` — with no condition relating the target row to `pr` or
`fs`. Under PostgreSQL `UPDATE ... FROM` semantics the target is therefore
cross-joined with the from-list: when the from-list is empty no row is
updated, and otherwise EVERY row of `ProfilingRequests` is updated using one
arbitrary matching join row (here modelled as the first `final_status` row in
table order, which is what a single sequential scan produces). -/
def autoUpdateProfilingRequestStatusByRequestIds (s : DBState)
    (request_ids : List String) (now : Nat) : DBState :=
  -- "if not request_ids: return True" (db_manager.py:769-770)
  if request_ids.isEmpty then s
  else
    match finalStatusRows s request_ids with
    | [] => s
    | (jpr, jst) :: _ =>
      { s with requests := s.requests.map (fun r =>
          { r with
            status := jst.toStr
            completed_at :=
              if jst == .completed || jst == .failed then some now else jpr.completed_at }) }

/-- Embedding of `DBManager.upsert_host_heartbeat` (db_manager.py:869-910):
`INSERT INTO HostHeartbeats ... ON CONFLICT (hostname, service_name) DO
UPDATE SET ip_address, last_command_id, status, heartbeat_timestamp`. -/
def upsertHostHeartbeat (s : DBState) (hostname ip_address service_name : String)
    (last_command_id : Option String) (status : String) (heartbeat_timestamp : Nat) :
    DBState :=
  if s.heartbeats.any (fun h => h.hostname == hostname && h.service_name == service_name) then
    { s with heartbeats := s.heartbeats.map (fun h =>
        if h.hostname == hostname && h.service_name == service_name then
          { h with
            ip_address := ip_address
            last_command_id := last_command_id
            status := status
            heartbeat_timestamp := heartbeat_timestamp }
        else h) }
  else
    { s with heartbeats := s.heartbeats ++
        [{ hostname := hostname
           service_name := service_name
           ip_address := ip_address
           last_command_id := last_command_id
           status := status
           heartbeat_timestamp := heartbeat_timestamp }] }

/-- Modelled from the spec: `update_heartbeat_related_tables` is invoked by
the heartbeat route (metrics_routes.py:485-489) but is not defined in the
available sources of `DBManager`. Per spec §4.4 step 1 the heartbeat handler
only upserts the liveness row before dispatching, so this helper touches none
of the modelled tables. -/
def updateHeartbeatRelatedTables (s : DBState) (_hostname _service_name : String) : DBState :=
  s

/-- Embedding of `DBManager.save_profiling_request` (db_manager.py:594-644):
insert the request row (`status` takes the table default 'pending') and, when
a host-to-PID mapping is given, store it in the in-memory cache
(db_manager.py:640-642, 646-649). -/
def saveProfilingRequest (s : DBState) (request_id request_type service_name : String)
    (continuous : Bool) (duration frequency : Option Int) (profiling_mode : Option String)
    (target_hostnames : Option (List String)) (pids : Option (List Pid))
    (host_pid_mapping : Option (List (String × List Pid)))
    (additional_args : Option (List (String × String))) : DBState × Bool :=
  let s := { s with requests := s.requests ++
      [{ request_id := request_id
         request_type := request_type
         service_name := service_name
         continuous := continuous
         duration := duration
         frequency := frequency
         profiling_mode := profiling_mode
         target_hostnames := target_hostnames
         pids := pids
         additional_args := additional_args
         status := "pending"
         completed_at := none }] }
  let s :=
    match host_pid_mapping with
    | some m =>
      if !m.isEmpty then { s with host_pid_mappings := s.host_pid_mappings ++ [(request_id, m)] }
      else s
    | none => s
  (s, true)

/-- The request body of the `/heartbeat` endpoint
(`HeartbeatRequest`, metrics_models.py:221-232) restricted to the fields the
handler uses. `timestamp = none` is replaced by the server clock
(metrics_routes.py:455-456). -/
structure HeartbeatIn where
  ip_address : String
  hostname : String
  service_name : String
  last_command_id : Option String := none
  status : String := "active"
  timestamp : Option Nat := none
deriving DecidableEq, Repr

/-- The response body of the `/heartbeat` endpoint
(`HeartbeatResponse`, metrics_models.py:235-241). The `profiling_command`
dict carries `command_type` and `combined_config` (metrics_routes.py:551-559). -/
structure HeartbeatOut where
  success : Bool
  message : String
  profiling_command : Option (String × Config)
  command_id : Option String
deriving DecidableEq, Repr

/-- Fold of the execution-upsert loop of the heartbeat handler
(metrics_routes.py:523-531): one `mark_profiling_request_assigned` per
request id of the command. -/
def markRequestsAssigned (command_id hostname : String) (now : Nat) :
    List String → DBState → DBState
  | [], s => s
  | rid :: rids, s =>
    markRequestsAssigned command_id hostname now rids
      (markProfilingRequestAssigned s rid command_id hostname now).1

/-- Embedding of the `/heartbeat` handler `receive_heartbeat`
(metrics_routes.py:442-585) on its non-raising path: upsert the liveness row,
fetch the current command for `(hostname, service_name)`, and — only when
that command is `pending` — mark it sent and upsert one execution row per
contributing request id. The command payload (or nulls, when no command row
exists) is returned regardless of the command's status. -/
def receiveHeartbeat (s : DBState) (hb : HeartbeatIn) (now : Nat) : DBState × HeartbeatOut :=
  let ts := hb.timestamp.getD now
  -- step 1: liveness upsert (metrics_routes.py:476-489)
  let s := upsertHostHeartbeat s hb.hostname hb.ip_address hb.service_name
    hb.last_command_id hb.status ts
  let s := updateHeartbeatRelatedTables s hb.hostname hb.service_name
  -- step 2: current command lookup (metrics_routes.py:492-495)
  match getCurrentProfilingCommand s hb.hostname hb.service_name with
  | some current_command =>
    -- steps 3-4 only when the command is pending (metrics_routes.py:499-531)
    let s :=
      if current_command.status == .pending then
        let s := (markProfilingCommandSent s current_command.command_id hb.hostname now).1
        markRequestsAssigned current_command.command_id hb.hostname now
          current_command.request_ids s
      else s
    (s, { success := true
          message := "Heartbeat received. New profiling command available."
          profiling_command :=
            some (current_command.command_type, current_command.combined_config)
          command_id := some current_command.command_id })
  | none =>
    (s, { success := true
          message := "Heartbeat received. No profiling commands."
          profiling_command := none
          command_id := none })

/-- Repeated heartbeats: the same request body delivered at the given
sequence of times, collecting the responses. -/
def heartbeatRuns (hb : HeartbeatIn) : List Nat → DBState → DBState × List HeartbeatOut
  | [], s => (s, [])
  | t :: ts, s =>
    let (s1, r) := receiveHeartbeat s hb t
    let (s2, rs) := heartbeatRuns hb ts s1
    (s2, r :: rs)

/-- The request body of the `/command_completion` endpoint
(`CommandCompletionRequest`, metrics_models.py:244-256). The status validator
admits only "completed" and "failed", so the field is typed `CmdStatus` with
that restriction stated where it matters. -/
structure CompletionIn where
  command_id : String
  hostname : String
  status : CmdStatus
  execution_time : Option Int := none
  error_message : Option String := none
  results_path : Option String := none
deriving DecidableEq, Repr

/-- Embedding of the `/command_completion` handler `report_command_completion`
(metrics_routes.py:588-662) on its non-raising path. Validation failure
returns `success = False` with the validator's message and performs no write;
otherwise the command row keyed `(command_id, hostname)` (if any) and the
execution row keyed `(command_id, hostname)` are updated, and request
statuses are recomputed only when the reported command is still the latest
command for the hostname. -/
def reportCommandCompletion (s : DBState) (comp : CompletionIn) (now : Nat) :
    DBState × (Bool × String) :=
  let (is_valid, error_message) :=
    validateCommandCompletionEligibility s comp.command_id comp.hostname
  if !is_valid then
    (s, (false, error_message))
  else
    -- update the command status (a no-op on the commands table when the
    -- reported command id is outdated, metrics_routes.py:622-633)
    let s := (updateProfilingCommandStatus s comp.command_id comp.hostname comp.status
      comp.execution_time comp.error_message comp.results_path now).1
    -- update the execution record (metrics_routes.py:635-645)
    let completed_at :=
      if comp.status == .completed || comp.status == .failed then some now else none
    let s := (updateProfilingExecutionStatus s comp.command_id comp.hostname comp.status.toStr
      completed_at comp.error_message comp.execution_time comp.results_path).1
    -- recompute request statuses only for the current command
    -- (metrics_routes.py:647-656)
    let current_command := getProfilingCommandByHostname s comp.hostname
    let outdated :=
      match current_command with
      | none => true
      | some cur => cur.command_id != comp.command_id
    let s :=
      match current_command with
      | some cur =>
        if !outdated then
          autoUpdateProfilingRequestStatusByRequestIds s cur.request_ids now
        else s
      | none => s
    (s, (true, "Command completion recorded for " ++ comp.command_id))

/-- The request body of the `/profile_request` endpoint
(`ProfilingRequest`, metrics_models.py:92-165), restricted to the fields the
handler uses. `target_hosts` maps hostnames to optional PID lists; defaults
follow the pydantic model. The model's validators (non-empty `target_hosts`,
positive duration/frequency, PID presence rules for stops) belong to the
transport validation layer, which spec §1 scopes out; where a theorem needs
one of them it is stated as a hypothesis. -/
structure ProfilingRequestIn where
  service_name : String
  request_type : String
  continuous : Bool := false
  duration : Option Int := some 60
  frequency : Option Int := some 11
  profiling_mode : Option String := some "cpu"
  target_hosts : List (String × Option (List Pid)) := []
  stop_level : Option String := some "process"
  additional_args : Option (List (String × String)) := none
deriving DecidableEq, Repr

/-- The response body of the `/profile_request` endpoint
(`ProfilingResponse`, metrics_models.py:167-174), without the
`estimated_completion_time` field (wall-clock datetime arithmetic, not
modelled). -/
structure ProfilingRespOut where
  success : Bool
  message : String
  request_id : Option String
  command_ids : Option (List String)
deriving DecidableEq, Repr

/-- Fold of the start-path loop of `create_profiling_request`
(metrics_routes.py:343-354): a fresh command id per target host, appended to
`command_ids` before the `create_or_update_profiling_command` call, whose
boolean result is ignored. `uuids` supplies the `str(uuid.uuid4())` values. -/
def startCommandsLoop (service_name request_id : String) (uuids : Nat → String) (now : Nat) :
    List String → Nat → DBState → List String → DBState × List String
  | [], _, s, acc => (s, acc)
  | h :: hs, i, s, acc =>
    let cid := uuids i
    let (s', _) := createOrUpdateProfilingCommandForHost s cid h service_name "start"
      request_id none now
    startCommandsLoop service_name request_id uuids now hs (i + 1) s' (acc ++ [cid])

/-- Fold of the stop-path loop of `create_profiling_request`
(metrics_routes.py:375-401): host-level stops call
`create_stop_command_for_host`, process-level stops call
`handle_process_level_stop` with the PID list the request stores for that
host (`None` when the request maps the host to no PIDs). A raised exception
aborts the loop. -/
def stopCommandsLoop (req : ProfilingRequestIn) (request_id : String) (uuids : Nat → String)
    (now : Nat) : List String → Nat → DBState → List String →
    DBState × Except PyErr (List String)
  | [], _, s, acc => (s, Except.ok acc)
  | h :: hs, i, s, acc =>
    let cid := uuids i
    let acc := acc ++ [cid]
    if req.stop_level == some "host" then
      let (s', _) := createStopCommandForHost s cid h req.service_name request_id "host" now
      stopCommandsLoop req request_id uuids now hs (i + 1) s' acc
    else
      -- host_pids = target_hosts[hostname] when present, else None
      -- (metrics_routes.py:389-392)
      let host_pids := (assocGet req.target_hosts h).getD none
      match handleProcessLevelStop s cid h req.service_name host_pids request_id "process" now with
      | Except.error e => (s, Except.error e)
      | Except.ok (s', _) => stopCommandsLoop req request_id uuids now hs (i + 1) s' acc

/-- The body of the inner `try` of `create_profiling_request`
(metrics_routes.py:307-409): persist the request, then create or update the
per-host commands. `.error` models an exception escaping the inner body —
including the handler's own `HTTPException(400)` for a stop with no targets
(metrics_routes.py:402-405). -/
def createProfilingRequestInner (s : DBState) (req : ProfilingRequestIn)
    (request_id : String) (uuids : Nat → String) (now : Nat) :
    DBState × Except PyErr (List String) :=
  -- legacy-format conversion (metrics_routes.py:308-314)
  let target_hostnames :=
    if req.target_hosts.isEmpty then none else some (req.target_hosts.map (·.1))
  let host_pid_mapping :=
    if req.target_hosts.isEmpty then none
    else some (req.target_hosts.filterMap (fun p =>
      match p.2 with
      | some pids => if !pids.isEmpty then some (p.1, pids) else none
      | none => none))
  -- save the request row; the deprecated global `pids` field is always None
  -- (metrics_routes.py:316-329)
  let (s, _) := saveProfilingRequest s request_id req.request_type req.service_name
    req.continuous req.duration req.frequency req.profiling_mode target_hostnames none
    host_pid_mapping req.additional_args
  let target_hosts := if req.target_hosts.isEmpty then [] else req.target_hosts.map (·.1)
  if req.request_type == "start" then
    if !target_hosts.isEmpty then
      -- per-host commands (metrics_routes.py:343-354)
      let (s, ids) := startCommandsLoop req.service_name request_id uuids now target_hosts 0 s []
      (s, Except.ok ids)
    else
      -- one command id fanned out to all active hosts of the service
      -- (metrics_routes.py:355-365)
      let cid := uuids 0
      let (s, _) := createOrUpdateProfilingCommand s cid none req.service_name "start"
        request_id none now
      (s, Except.ok [cid])
  else if req.request_type == "stop" then
    if !target_hosts.isEmpty then
      stopCommandsLoop req request_id uuids now target_hosts 0 s []
    else
      (s, Except.error (PyErr.httpException 400 "Stop commands require specific target hosts"))
  else (s, Except.ok [])

/-- Embedding of the `/profile_request` handler `create_profiling_request`
(metrics_routes.py:267-439). Every exception escaping the inner body —
`HTTPException` included, since `fastapi.HTTPException` derives from
`Exception` — is caught by the inner `except Exception` (metrics_routes.py:
411-413) and re-raised as `HTTPException(500, "Failed to save profiling
request to database")`, which the outer `except HTTPException` re-raises
unchanged (metrics_routes.py:434-436). -/
def createProfilingRequest (s : DBState) (req : ProfilingRequestIn) (request_id : String)
    (uuids : Nat → String) (now : Nat) : DBState × Except (Nat × String) ProfilingRespOut :=
  match createProfilingRequestInner s req request_id uuids now with
  | (s', Except.ok command_ids) =>
    let message :=
      if command_ids.length == 1 then
        req.request_type.capitalize ++ " profiling request submitted successfully for service '"
          ++ req.service_name ++ "'"
      else
        req.request_type.capitalize ++ " profiling request submitted successfully for service '"
          ++ req.service_name ++ "' across " ++ toString command_ids.length ++ " hosts"
    (s', Except.ok
      { success := true
        message := message
        request_id := some request_id
        command_ids := some command_ids })
  | (s', Except.error _) =>
    (s', Except.error (500, "Failed to save profiling request to database"))

/-- Number of `ProfilingExecutions` rows with the given `(command_id,
hostname)` primary key. -/
def execKeyCount (s : DBState) (command_id hostname : String) : Nat :=
  (s.executions.filter (fun e => e.command_id == command_id && e.hostname == hostname)).length

/-- The heartbeat response carrying a command payload
(metrics_routes.py:551-559). -/
def heartbeatPayload (c : CommandRow) : HeartbeatOut :=
  { success := true
    message := "Heartbeat received. New profiling command available."
    profiling_command := some (c.command_type, c.combined_config)
    command_id := some c.command_id }

/-- The heartbeat response with no command (metrics_routes.py:566-571). -/
def heartbeatNoCommand : HeartbeatOut :=
  { success := true
    message := "Heartbeat received. No profiling commands."
    profiling_command := none
    command_id := none }

/-- Scenario S1 of the spec, request R1: service `svc`, hosts `h1 ↦
[100, 200]`, duration 60, frequency 11. -/
def scnReq1 : RequestRow :=
  { request_id := "R1"
    request_type := "start"
    service_name := "svc"
    continuous := false
    duration := some 60
    frequency := some 11
    profiling_mode := some "cpu"
    target_hostnames := some ["h1"]
    pids := none
    additional_args := none
    status := "pending"
    completed_at := none }

/-- Scenario S1 of the spec, request R2: service `svc`, hosts `h1 ↦ [300]`,
duration 120, frequency 11. -/
def scnReq2 : RequestRow :=
  { scnReq1 with request_id := "R2", duration := some 120 }

/-- Scenario S1 before any command creation: both requests persisted with
their host-to-PID mappings. -/
def scnState0 : DBState :=
  { requests := [scnReq1, scnReq2]
    commands := []
    executions := []
    heartbeats := []
    host_pid_mappings := [("R1", [("h1", [100, 200])]), ("R2", [("h1", [300])])] }

/-- Scenario S1 after R1 is reconciled onto `(h1, svc)`. -/
def scnState1 : DBState :=
  (createOrUpdateProfilingCommandForHost scnState0 "cmdA" "h1" "svc" "start" "R1" none 10).1

/-- Scenario S1 after R2 is reconciled onto the same `(h1, svc)` while R1's
command is still pending. -/
def scnState2 : DBState :=
  (createOrUpdateProfilingCommandForHost scnState1 "cmdB" "h1" "svc" "start" "R2" none 20).1

/-- The combined config the R1 command carries in `scnState1`. -/
def scnCfg1 : Config :=
  { command_type := some "start"
    continuous := some false
    duration := some 60
    frequency := some 11
    profiling_mode := some "cpu"
    pids := some [100, 200] }

/-- The per-host config `create_or_update_profiling_command` builds for R2 on
`h1` (db_manager.py:1066-1084). -/
def scnCfg2 : Config :=
  { command_type := some "start"
    continuous := some false
    duration := some 120
    frequency := some 11
    profiling_mode := some "cpu"
    pids := some [300] }

/-- A start command row used by the heartbeat scenarios: pending on
`(h1, svc)` from request R1. -/
def hbCmd : CommandRow :=
  { command_id := "A"
    hostname := "h1"
    service_name := "svc"
    command_type := "start"
    request_ids := ["R1"]
    combined_config := { pids := some [100] }
    status := .pending
    created_at := 1 }

/-- Heartbeat scenario state: one pending command and no executions. -/
def hbState : DBState :=
  { requests := [scnReq1]
    commands := [hbCmd]
    executions := []
    heartbeats := []
    host_pid_mappings := [] }

/-- The heartbeat request body used by the heartbeat scenarios. -/
def hbIn : HeartbeatIn :=
  { ip_address := "10.0.0.1", hostname := "h1", service_name := "svc" }

/-- State for the C3 counterexample: the `(h1, svc)` command row is in the
terminal status `completed`. -/
def termState : DBState :=
  { requests := []
    commands := [{ hbCmd with status := .completed }]
    executions := []
    heartbeats := []
    host_pid_mappings := [] }

/-- State for the stop-degradation scenarios: a start command on `(h1, svc)`
profiling PIDs 100, 200, 300. -/
def stopScnState : DBState :=
  { requests := []
    commands := [{ hbCmd with combined_config := { pids := some [100, 200, 300] } }]
    executions := []
    heartbeats := []
    host_pid_mappings := [] }

/-- A request row for the status-recompute scenario, distinguished only by
its id. -/
def auReq (rid : String) : RequestRow :=
  { scnReq1 with request_id := rid, target_hostnames := none }

/-- State for the status-recompute scenario: request RA's only command
failed, request RB's only command completed, and request RC (not passed to
the recompute) has no commands. -/
def auState : DBState :=
  { requests := [auReq "RA", auReq "RB", auReq "RC"]
    commands :=
      [{ hbCmd with command_id := "X", hostname := "hX", request_ids := ["RA"], status := .failed },
       { hbCmd with command_id := "Y", hostname := "hY", request_ids := ["RB"], status := .completed }]
    executions := []
    heartbeats := []
    host_pid_mappings := [] }

/-- State for the completion scenarios: an execution row for command A on h1
in status `assigned`, another for command B on h1 already `completed`, and
the current command row for h1 is command C. -/
def complState : DBState :=
  { requests := [auReq "RA"]
    commands := [{ hbCmd with command_id := "C", request_ids := ["RA"], status := .sent }]
    executions :=
      [{ command_id := "A", hostname := "h1", profiling_request_id := "RA", status := "assigned", started_at := 2 },
       { command_id := "B", hostname := "h1", profiling_request_id := "RA", status := "completed", started_at := 2 }]
    heartbeats := []
    host_pid_mappings := [] }

/-- State for the fan-out scenario: two live hosts of `svc` and one stale
one, a saved request R9, and no commands. -/
def fanState : DBState :=
  { requests := [{ scnReq1 with request_id := "R9", target_hostnames := none }]
    commands := []
    executions := []
    heartbeats :=
      [{ hostname := "hA", service_name := "svc", ip_address := "10.0.0.2", last_command_id := none, status := "active", heartbeat_timestamp := 1000 },
       { hostname := "hB", service_name := "svc", ip_address := "10.0.0.3", last_command_id := none, status := "active", heartbeat_timestamp := 1000 },
       { hostname := "hC", service_name := "svc", ip_address := "10.0.0.4", last_command_id := none, status := "idle", heartbeat_timestamp := 1000 }]
    host_pid_mappings := [] }

/-- A constant uuid supply for concrete endpoint evaluations. -/
def uuidConst (n : String) : Nat → String := fun _ => n

/-- The stop request used by the C8 scenario: a host-level stop whose
resolved target host set is empty. -/
def emptyStopReq : ProfilingRequestIn :=
  { service_name := "svc", request_type := "stop", stop_level := some "host",
    target_hosts := [] }

/-- The stop request used by the C10 endpoint scenario: a process-level stop
naming host h1 with no PIDs. -/
def noPidStopReq : ProfilingRequestIn :=
  { service_name := "svc", request_type := "stop", stop_level := some "process",
    target_hosts := [("h1", none)] }

/-- The start request used by the C9 endpoint scenario: no explicit target
hosts. -/
def noTargetStartReq : ProfilingRequestIn :=
  { service_name := "svc", request_type := "start", target_hosts := [] }

theorem aux_find?_map {α : Type} (f : α → α) (p : α → Bool) (l : List α)
    (hf : ∀ x, p (f x) = p x) : (l.map f).find? p = (l.find? p).map f := by
  induction l with
  | nil => rfl
  | cons a l ih =>
    by_cases h : p a
    · rw [List.map_cons, List.find?_cons_of_pos _ (by rw [hf]; exact h),
        List.find?_cons_of_pos _ h]
      rfl
    · rw [List.map_cons, List.find?_cons_of_neg _ (by rw [hf]; simpa using h),
        List.find?_cons_of_neg _ (by simpa using h), ih]

theorem aux_filter_map_length {α : Type} (f : α → α) (p : α → Bool) (l : List α)
    (hf : ∀ x, p (f x) = p x) : ((l.map f).filter p).length = (l.filter p).length := by
  induction l with
  | nil => rfl
  | cons a l ih =>
    by_cases h : p a
    · rw [List.map_cons, List.filter_cons_of_pos (by rw [hf]; exact h),
        List.filter_cons_of_pos h, List.length_cons, List.length_cons, ih]
    · rw [List.map_cons, List.filter_cons_of_neg (by rw [hf]; simpa using h),
        List.filter_cons_of_neg (by simpa using h), ih]

theorem aux_getCurrent_eq_of_commands {s s' : DBState} (h : s'.commands = s.commands)
    (hn svc : String) :
    getCurrentProfilingCommand s' hn svc = getCurrentProfilingCommand s hn svc := by
  unfold getCurrentProfilingCommand
  rw [h]

theorem aux_upsertHB_commands (s : DBState) (hn ip svc : String) (lc : Option String)
    (st : String) (ts : Nat) :
    (upsertHostHeartbeat s hn ip svc lc st ts).commands = s.commands := by
  unfold upsertHostHeartbeat
  split <;> rfl

theorem aux_upsertHB_executions (s : DBState) (hn ip svc : String) (lc : Option String)
    (st : String) (ts : Nat) :
    (upsertHostHeartbeat s hn ip svc lc st ts).executions = s.executions := by
  unfold upsertHostHeartbeat
  split <;> rfl

theorem aux_markSent_executions (s : DBState) (cid hn : String) (now : Nat) :
    (markProfilingCommandSent s cid hn now).1.executions = s.executions := rfl

theorem aux_markAssigned_commands (s : DBState) (rid cid hn : String) (now : Nat) :
    (markProfilingRequestAssigned s rid cid hn now).1.commands = s.commands := by
  unfold markProfilingRequestAssigned
  split <;> rfl

theorem aux_markRequestsAssigned_commands (cid hn : String) (now : Nat) (rids : List String)
    (s : DBState) : (markRequestsAssigned cid hn now rids s).commands = s.commands := by
  induction rids generalizing s with
  | nil => rfl
  | cons r rs ih =>
    unfold markRequestsAssigned
    rw [ih, aux_markAssigned_commands]

/-- Claim C1. For every pair of start requests R1 then R2 submitted for the
same (host, service) while the command created for R1 is still pending,
`create_or_update_profiling_command` is claimed to leave one command row with
`request_ids = [R1, R2]`, the deduplicated PID union, and the field maxima.
The code instead discards the existing command entirely: the guard at
db_manager.py:1105 reads `existing_command.get("status")` on a dict whose
SELECT (db_manager.py:1088-1094) does not include the status column, so the
merge branch is dead and the upsert overwrites the row with R2's lone id and
config. On spec scenario S1 the row ends with `request_ids = ["R2"]` and
`pids = [300]`, while `_merge_profiling_configs` applied to the two configs —
what the dead branch would have stored — yields the claimed merge. -/
theorem c1_second_start_request_discards_merge :
    scnState2.commands.length = 1
    ∧ getCurrentProfilingCommand scnState1 "h1" "svc"
        = some { command_id := "cmdA", hostname := "h1", service_name := "svc",
                 command_type := "start", request_ids := ["R1"], combined_config := scnCfg1,
                 status := .pending, created_at := 10 }
    ∧ getCurrentProfilingCommand scnState2 "h1" "svc"
        = some { command_id := "cmdB", hostname := "h1", service_name := "svc",
                 command_type := "start", request_ids := ["R2"], combined_config := scnCfg2,
                 status := .pending, created_at := 20 }
    ∧ mergeProfilingConfigs scnCfg1 scnCfg2
        = { command_type := some "start", continuous := some false, duration := some 120,
            frequency := some 11, profiling_mode := some "cpu", pids := some [100, 200, 300] } := by
  refine ⟨rfl, rfl, rfl, rfl⟩

/-- Claim C5. `auto_update_profiling_request_status_by_request_ids` is
claimed to set each request's status to the priority-max over its own
commands. The UPDATE at db_manager.py:814-825 joins the target table against
`FROM ProfilingRequests pr JOIN final_status fs` with no condition relating
the target row to `fs`, so every `ProfilingRequests` row is updated from one
arbitrary joined row. Here request RA derives `failed` and RB derives
`completed`, yet after recomputing for ["RA", "RB"] the RB row — and even
the uninvolved RC row — carries `failed`, with RB's `completed_at` stamped
from RA's terminal status. -/
theorem c5_status_recompute_update_misjoins :
    derivedStatus auState "RA" = some .failed
    ∧ derivedStatus auState "RB" = some .completed
    ∧ (autoUpdateProfilingRequestStatusByRequestIds auState ["RA", "RB"] 50).requests.map
        (fun r => (r.request_id, r.status, r.completed_at))
      = [("RA", "failed", some 50), ("RB", "failed", some 50), ("RC", "failed", some 50)] := by
  refine ⟨rfl, rfl, rfl⟩

/-- Claim C8. A stop request whose resolved target host set is empty is
claimed to be rejected with HTTP 400 "Stop commands require specific target
hosts". The handler does raise exactly that `HTTPException(400)`
(metrics_routes.py:405), but the raise sits inside the inner `try` whose
blanket `except Exception` (metrics_routes.py:411-413) — `HTTPException`
derives from `Exception` — replaces it with `HTTPException(500, "Failed to
save profiling request to database")`, so the endpoint answers 5xx, not
4xx. -/
theorem c8_empty_stop_targets_returns_500 :
    (createProfilingRequestInner auState emptyStopReq "RID" (uuidConst "CID") 3).2
      = Except.error (PyErr.httpException 400 "Stop commands require specific target hosts")
    ∧ (createProfilingRequest auState emptyStopReq "RID" (uuidConst "CID") 3).2
      = Except.error (500, "Failed to save profiling request to database") := by
  refine ⟨rfl, rfl⟩

/-- Claim C3, counterexample. The claim says a heartbeat arriving while the
current `(hostname, service)` command row is in a terminal status gets
`command_id = null` and `profiling_command = null`. In `termState` the row
for `(h1, svc)` is `completed`, yet the heartbeat response still carries the
command id and payload: `receive_heartbeat` (metrics_routes.py:497-559)
returns whatever row `get_current_profiling_command` finds, with no check of
its status. -/
theorem c3_terminal_status_counterexample :
    (getCurrentProfilingCommand termState "h1" "svc").map (fun c => c.status)
      = some .completed
    ∧ (receiveHeartbeat termState hbIn 5).2.command_id = some "A"
    ∧ (receiveHeartbeat termState hbIn 5).2.profiling_command ≠ none := by
  refine ⟨rfl, rfl, by decide⟩

/-- Claim C6. A completion report for a `(command_id, hostname)` pair with no
`ProfilingExecutions` row, or whose execution row is not in status
`assigned`, is answered with `success = false` and a message distinguishing
the unknown case ("not found for host") from the wrong-state case (naming
the actual status), and the handler mutates no table: validation
(db_manager.py:1497-1533) runs before any write and the handler returns
immediately on failure (metrics_routes.py:614-620). -/
theorem c6_invalid_completion_rejected_without_mutation (s : DBState) (comp : CompletionIn)
    (now : Nat) :
    (s.executions.find? (fun e => e.command_id == comp.command_id && e.hostname == comp.hostname)
        = none →
      reportCommandCompletion s comp now
        = (s, (false, "Command " ++ comp.command_id ++ " not found for host " ++ comp.hostname)))
    ∧ (∀ e, s.executions.find?
          (fun e => e.command_id == comp.command_id && e.hostname == comp.hostname) = some e →
        e.status ≠ "assigned" →
        reportCommandCompletion s comp now
          = (s, (false, "Command " ++ comp.command_id ++ " for host " ++ comp.hostname
              ++ " is in status '" ++ e.status ++ "', expected 'assigned'"))) := by
  constructor
  · intro h
    unfold reportCommandCompletion validateCommandCompletionEligibility
    rw [h]
    rfl
  · intro e he hst
    unfold reportCommandCompletion validateCommandCompletionEligibility
    rw [he]
    have hb : (e.status != "assigned") = true := by simpa using hst
    simp only [hb, if_true]
    rfl

/-- Claim C6, witness: in `complState`, command Z is unknown on h1 and
command B's execution row is already `completed`; both reports are rejected
with the distinguishing messages and the state is returned unchanged. -/
theorem c6_invalid_completion_rejected_without_mutation_witness :
    reportCommandCompletion complState
        { command_id := "Z", hostname := "h1", status := .completed } 9
      = (complState, (false, "Command Z not found for host h1"))
    ∧ reportCommandCompletion complState
        { command_id := "B", hostname := "h1", status := .completed } 9
      = (complState, (false, "Command B for host h1 is in status 'completed', expected 'assigned'")) := by
  constructor
  · exact (c6_invalid_completion_rejected_without_mutation complState
      { command_id := "Z", hostname := "h1", status := .completed } 9).1 rfl
  · exact (c6_invalid_completion_rejected_without_mutation complState
      { command_id := "B", hostname := "h1", status := .completed } 9).2
      { command_id := "B", hostname := "h1", profiling_request_id := "RA",
        status := "completed", started_at := 2 } rfl (by decide)

/-- Claim C4. A process-level stop whose PID set covers every PID of the
current start command for `(hostname, service)` leaves that row as a
host-level stop: `handle_process_level_stop` (db_manager.py:1258-1270)
computes the remaining PIDs, finds none, and delegates to
`create_stop_command_for_host` (db_manager.py:1207-1247), whose conflict
branch rewrites the row to `command_type = 'stop'`, `combined_config =
{"stop_level": "host"}`, status `pending`, with the stop request's id
appended to `request_ids`. -/
theorem c4_full_cover_process_stop_degrades_to_host_stop (s : DBState)
    (cid hn svc rid : String) (now : Nat) (c : CommandRow) (ps qs : List Pid)
    (hcur : getCurrentProfilingCommand s hn svc = some c)
    (htype : c.command_type = "start")
    (hpids : c.combined_config.pids = some ps)
    (hne : ps ≠ [])
    (hcover : ∀ p ∈ ps, p ∈ qs) :
    ∃ s', handleProcessLevelStop s cid hn svc (some qs) rid "process" now
        = Except.ok (s', true)
      ∧ getCurrentProfilingCommand s' hn svc
        = some { c with
            command_id := cid
            command_type := "stop"
            request_ids := c.request_ids ++ [rid]
            combined_config := { stop_level := some "host" }
            status := .pending
            created_at := now } := by
  have hkey : (c.hostname == hn && c.service_name == svc) = true := by
    have := List.find?_some hcur
    simpa using this
  have hmem : c ∈ s.commands := List.mem_of_find?_eq_some hcur
  have hany : s.commands.any (fun x => x.hostname == hn && x.service_name == svc) = true :=
    List.any_eq_true.mpr ⟨c, hmem, by simpa using hkey⟩
  have hfilter : ps.filter (fun pid => !qs.contains pid) = [] := by
    rw [List.filter_eq_nil_iff]
    intro p hp
    simp [hcover p hp]
  have htypeb : (c.command_type == "start") = true := by simp [htype]
  have hnotempty : (!ps.isEmpty) = true := by
    cases ps with
    | nil => exact absurd rfl hne
    | cons a l => rfl
  have hf : ∀ x : CommandRow,
      ((fun y : CommandRow => y.hostname == hn && y.service_name == svc)
        (if x.hostname == hn && x.service_name == svc then
          { x with
            command_id := cid
            command_type := "stop"
            request_ids := x.request_ids ++ [rid]
            combined_config := { stop_level := some "host" }
            status := .pending
            created_at := now }
        else x))
      = (x.hostname == hn && x.service_name == svc) := by
    intro x
    by_cases hx : (x.hostname == hn && x.service_name == svc) = true
    · simp [hx]
    · simp [hx]
  refine ⟨{ s with commands := s.commands.map (fun x =>
      if x.hostname == hn && x.service_name == svc then
        { x with
          command_id := cid
          command_type := "stop"
          request_ids := x.request_ids ++ [rid]
          combined_config := { stop_level := some "host" }
          status := .pending
          created_at := now }
      else x) }, ?_, ?_⟩
  · unfold handleProcessLevelStop createStopCommandForHost
    rw [hcur]
    simp only [htypeb, hpids, Option.getD_some, hnotempty, hfilter, hany, if_true]
    rfl
  · show (s.commands.map _).find? _ = _
    rw [aux_find?_map _ _ _ hf]
    have hc : s.commands.find? (fun y => y.hostname == hn && y.service_name == svc) = some c :=
      hcur
    rw [hc]
    simp only [Option.map_some']
    rw [if_pos hkey]

/-- Claim C4, witness: in `stopScnState` the start command on `(h1, svc)`
profiles PIDs 100, 200, 300 and the process-level stop names exactly those
PIDs, so the row degrades to a pending host-level stop. -/
theorem c4_full_cover_process_stop_degrades_to_host_stop_witness :
    getCurrentProfilingCommand stopScnState "h1" "svc"
      = some { hbCmd with combined_config := { pids := some [100, 200, 300] } }
    ∧ ∃ s', handleProcessLevelStop stopScnState "S" "h1" "svc" (some [100, 200, 300])
          "R3" "process" 30 = Except.ok (s', true)
      ∧ getCurrentProfilingCommand s' "h1" "svc"
        = some { hbCmd with
            command_id := "S"
            command_type := "stop"
            request_ids := hbCmd.request_ids ++ ["R3"]
            combined_config := { stop_level := some "host" }
            status := .pending
            created_at := 30 } :=
  ⟨rfl, c4_full_cover_process_stop_degrades_to_host_stop stopScnState "S" "h1" "svc" "R3" 30
    { hbCmd with combined_config := { pids := some [100, 200, 300] } }
    [100, 200, 300] [100, 200, 300] rfl rfl rfl (by decide) (by decide)⟩

theorem aux_processStop_none_error (s : DBState) (cid hn svc rid : String) (now : Nat)
    (c : CommandRow) (ps : List Pid)
    (hcur : getCurrentProfilingCommand s hn svc = some c)
    (htype : c.command_type = "start")
    (hpids : c.combined_config.pids = some ps)
    (hne : ps ≠ []) :
    handleProcessLevelStop s cid hn svc none rid "process" now
      = Except.error (PyErr.typeError "argument of type 'NoneType' is not iterable") := by
  have htypeb : (c.command_type == "start") = true := by simp [htype]
  have hnotempty : (!ps.isEmpty) = true := by
    cases ps with
    | nil => exact absurd rfl hne
    | cons a l => rfl
  unfold handleProcessLevelStop
  rw [hcur]
  simp only [htypeb, hpids, Option.getD_some, hnotempty, if_true]

/-- Claim C10. When the current command for `(hostname, service)` is a start
with a non-empty PID set, `handle_process_level_stop` with `pids_to_stop =
None` reaches the membership test `pid not in pids_to_stop`
(db_manager.py:1266) and raises `TypeError`; through the endpoint the
exception becomes HTTP 500 (metrics_routes.py:411-413) and no stop command is
recorded. With `pids_to_stop ≠ None` the call always succeeds in that
state. -/
theorem c10_process_stop_without_pids_raises (s : DBState) (cid hn svc rid : String)
    (now : Nat) (c : CommandRow) (ps : List Pid)
    (hcur : getCurrentProfilingCommand s hn svc = some c)
    (htype : c.command_type = "start")
    (hpids : c.combined_config.pids = some ps)
    (hne : ps ≠ []) :
    handleProcessLevelStop s cid hn svc none rid "process" now
      = Except.error (PyErr.typeError "argument of type 'NoneType' is not iterable")
    ∧ (∀ qs, ∃ r, handleProcessLevelStop s cid hn svc (some qs) rid "process" now
        = Except.ok r)
    ∧ (∀ rid2 u,
        (createProfilingRequest s
            { service_name := svc, request_type := "stop", stop_level := some "process",
              target_hosts := [(hn, none)] } rid2 u now).2
          = Except.error (500, "Failed to save profiling request to database")
        ∧ (createProfilingRequest s
            { service_name := svc, request_type := "stop", stop_level := some "process",
              target_hosts := [(hn, none)] } rid2 u now).1.commands = s.commands) := by
  have htypeb : (c.command_type == "start") = true := by simp [htype]
  have hnotempty : (!ps.isEmpty) = true := by
    cases ps with
    | nil => exact absurd rfl hne
    | cons a l => rfl
  refine ⟨aux_processStop_none_error s cid hn svc rid now c ps hcur htype hpids hne, ?_, ?_⟩
  · intro qs
    unfold handleProcessLevelStop
    rw [hcur]
    simp only [htypeb, hpids, Option.getD_some, hnotempty, if_true]
    split
    · exact ⟨_, rfl⟩
    · exact ⟨_, rfl⟩
  · intro rid2 u
    have hloop : ∀ s₁ : DBState, s₁.commands = s.commands →
        stopCommandsLoop
          { service_name := svc, request_type := "stop", stop_level := some "process",
            target_hosts := [(hn, none)] } rid2 u now [hn] 0 s₁ []
          = (s₁, Except.error (PyErr.typeError "argument of type 'NoneType' is not iterable")) := by
      intro s₁ hcmds
      have hcur1 : getCurrentProfilingCommand s₁ hn svc = some c := by
        rw [aux_getCurrent_eq_of_commands hcmds]
        exact hcur
      have herr := aux_processStop_none_error s₁ (u 0) hn svc rid2 now c ps hcur1 htype
        hpids hne
      have hpid : (assocGet [(hn, (none : Option (List Pid)))] hn).getD none
          = (none : Option (List Pid)) := by
        simp [assocGet]
      unfold stopCommandsLoop
      simp only [hpid]
      rw [herr]
      rfl
    simp [createProfilingRequest, createProfilingRequestInner, saveProfilingRequest]
    rw [hloop]
    · exact ⟨rfl, rfl⟩
    · rfl

/-- Claim C10, witness: in `stopScnState` the current `(h1, svc)` command is
a start profiling PIDs 100, 200, 300; the process-level stop with no PIDs
raises, while any concrete PID list succeeds, and the endpoint answers 500
while leaving the commands table untouched. -/
theorem c10_process_stop_without_pids_raises_witness :
    getCurrentProfilingCommand stopScnState "h1" "svc"
      = some { hbCmd with combined_config := { pids := some [100, 200, 300] } }
    ∧ handleProcessLevelStop stopScnState "S2" "h1" "svc" none "R4" "process" 40
        = Except.error (PyErr.typeError "argument of type 'NoneType' is not iterable")
    ∧ (∃ r, handleProcessLevelStop stopScnState "S2" "h1" "svc" (some [100]) "R4"
        "process" 40 = Except.ok r)
    ∧ (createProfilingRequest stopScnState
          { service_name := "svc", request_type := "stop", stop_level := some "process",
            target_hosts := [("h1", none)] } "R5" (uuidConst "C5") 40).2
        = Except.error (500, "Failed to save profiling request to database") :=
  have h := c10_process_stop_without_pids_raises stopScnState "S2" "h1" "svc" "R4" 40
    { hbCmd with combined_config := { pids := some [100, 200, 300] } }
    [100, 200, 300] rfl rfl rfl (by decide)
  ⟨rfl, h.1, h.2.1 [100], (h.2.2 "R5" (uuidConst "C5")).1⟩

theorem aux_upsertCmd_commands_pos (s : DBState) (cid hn svc ct : String)
    (rids : List String) (cfg : Config) (now : Nat)
    (hany : s.commands.any (fun c => c.hostname == hn && c.service_name == svc) = true) :
    (upsertCommandRow s cid hn svc ct rids cfg now).commands
      = s.commands.map (fun c =>
          if c.hostname == hn && c.service_name == svc then
            { c with
              command_id := cid
              command_type := ct
              request_ids := rids
              combined_config := cfg
              status := .pending
              created_at := now }
          else c) := by
  unfold upsertCommandRow
  rw [if_pos hany]

theorem aux_upsertCmd_commands_neg (s : DBState) (cid hn svc ct : String)
    (rids : List String) (cfg : Config) (now : Nat)
    (hany : s.commands.any (fun c => c.hostname == hn && c.service_name == svc) = false) :
    (upsertCommandRow s cid hn svc ct rids cfg now).commands
      = s.commands ++
        [{ command_id := cid
           hostname := hn
           service_name := svc
           command_type := ct
           request_ids := rids
           combined_config := cfg
           status := .pending
           created_at := now }] := by
  unfold upsertCommandRow
  rw [if_neg (by simp [hany])]

theorem aux_upsert_map_key (cid hn svc ct : String) (rids : List String) (cfg : Config)
    (now : Nat) (a b : String) : ∀ x : CommandRow,
    ((fun y : CommandRow => y.hostname == a && y.service_name == b)
      (if x.hostname == hn && x.service_name == svc then
        { x with
          command_id := cid
          command_type := ct
          request_ids := rids
          combined_config := cfg
          status := .pending
          created_at := now }
      else x))
    = (x.hostname == a && x.service_name == b) := by
  intro x
  by_cases hx : (x.hostname == hn && x.service_name == svc) = true
  · simp [hx]
  · simp [hx]

theorem aux_upsertCmd_getCurrent_self (s : DBState) (cid hn svc ct : String)
    (rids : List String) (cfg : Config) (now : Nat) :
    ∃ r, getCurrentProfilingCommand (upsertCommandRow s cid hn svc ct rids cfg now) hn svc
        = some r ∧ r.command_id = cid ∧ r.status = .pending := by
  by_cases hany : s.commands.any (fun c => c.hostname == hn && c.service_name == svc) = true
  · obtain ⟨c0, hc0mem, hc0p⟩ := List.any_eq_true.mp hany
    have hfind : (s.commands.find? (fun c => c.hostname == hn && c.service_name == svc)).isSome := by
      rw [List.find?_isSome]
      exact ⟨c0, hc0mem, hc0p⟩
    obtain ⟨c1, hc1⟩ := Option.isSome_iff_exists.mp hfind
    have hc1p : (c1.hostname == hn && c1.service_name == svc) = true := by
      simpa using List.find?_some hc1
    refine ⟨{ c1 with
        command_id := cid
        command_type := ct
        request_ids := rids
        combined_config := cfg
        status := .pending
        created_at := now }, ?_, rfl, rfl⟩
    unfold getCurrentProfilingCommand
    rw [aux_upsertCmd_commands_pos s cid hn svc ct rids cfg now hany,
      aux_find?_map _ _ _ (aux_upsert_map_key cid hn svc ct rids cfg now hn svc), hc1]
    simp only [Option.map_some']
    rw [if_pos hc1p]
  · have hany' : s.commands.any (fun c => c.hostname == hn && c.service_name == svc) = false :=
      Bool.eq_false_iff.mpr hany
    have hnone : s.commands.find? (fun c => c.hostname == hn && c.service_name == svc) = none := by
      apply List.find?_eq_none.mpr
      intro x hx
      cases hxp : (x.hostname == hn && x.service_name == svc)
      · simp
      · have hc : (s.commands.any fun c => c.hostname == hn && c.service_name == svc) = true :=
          List.any_eq_true.mpr ⟨x, hx, hxp⟩
        rw [hany'] at hc
        exact absurd hc (by simp)
    let w : CommandRow :=
      { command_id := cid
        hostname := hn
        service_name := svc
        command_type := ct
        request_ids := rids
        combined_config := cfg
        status := .pending
        created_at := now }
    refine ⟨w, ?_, rfl, rfl⟩
    unfold getCurrentProfilingCommand
    rw [aux_upsertCmd_commands_neg s cid hn svc ct rids cfg now hany',
      List.find?_append, hnone]
    simp

theorem aux_upsertCmd_getCurrent_other (s : DBState) (cid hn' svc ct : String)
    (rids : List String) (cfg : Config) (now : Nat) (hn : String) (hne : hn ≠ hn') :
    getCurrentProfilingCommand (upsertCommandRow s cid hn' svc ct rids cfg now) hn svc
      = getCurrentProfilingCommand s hn svc := by
  by_cases hany : s.commands.any (fun c => c.hostname == hn' && c.service_name == svc) = true
  · unfold getCurrentProfilingCommand
    rw [aux_upsertCmd_commands_pos s cid hn' svc ct rids cfg now hany,
      aux_find?_map _ _ _ (aux_upsert_map_key cid hn' svc ct rids cfg now hn svc)]
    cases hfind : s.commands.find? (fun c => c.hostname == hn && c.service_name == svc) with
    | none => rfl
    | some c =>
      have hcp : (c.hostname == hn && c.service_name == svc) = true := by
        simpa using List.find?_some hfind
      have hchn : c.hostname = hn := by
        have := hcp
        simp at this
        exact this.1
      have hcond : (c.hostname == hn' && c.service_name == svc) = false := by
        rw [hchn]
        simp [hne]
      simp only [Option.map_some']
      rw [if_neg (by simp [hcond])]
  · have hany' : s.commands.any (fun c => c.hostname == hn' && c.service_name == svc) = false :=
      Bool.eq_false_iff.mpr hany
    unfold getCurrentProfilingCommand
    rw [aux_upsertCmd_commands_neg s cid hn' svc ct rids cfg now hany', List.find?_append]
    have hlast : List.find? (fun c : CommandRow => c.hostname == hn && c.service_name == svc)
        [{ command_id := cid
           hostname := hn'
           service_name := svc
           command_type := ct
           request_ids := rids
           combined_config := cfg
           status := CmdStatus.pending
           created_at := now }] = none := by
      apply List.find?_eq_none.mpr
      intro x hx
      simp only [List.mem_singleton] at hx
      subst hx
      have hb : (hn' == hn) = false := by
        rw [beq_eq_false_iff_ne]
        exact fun h => hne h.symm
      simp [hb]
    rw [hlast]
    cases s.commands.find? (fun c => c.hostname == hn && c.service_name == svc) <;> rfl

theorem aux_forHost_requests (s : DBState) (cid hn svc ct rid : String)
    (sl : Option String) (now : Nat) :
    (createOrUpdateProfilingCommandForHost s cid hn svc ct rid sl now).1.requests
      = s.requests := by
  unfold createOrUpdateProfilingCommandForHost
  cases s.requests.find? (fun r => r.request_id == rid) with
  | none => rfl
  | some req =>
    show (upsertCommandRow s cid hn svc ct _ _ now).requests = s.requests
    unfold upsertCommandRow
    split <;> rfl

theorem aux_forHost_sets (s : DBState) (cid hn svc ct rid : String)
    (sl : Option String) (now : Nat)
    (hreq : (s.requests.find? (fun r => r.request_id == rid)).isSome) :
    ∃ r, getCurrentProfilingCommand
        (createOrUpdateProfilingCommandForHost s cid hn svc ct rid sl now).1 hn svc
      = some r ∧ r.command_id = cid ∧ r.status = .pending := by
  obtain ⟨req, hr⟩ := Option.isSome_iff_exists.mp hreq
  unfold createOrUpdateProfilingCommandForHost
  rw [hr]
  exact aux_upsertCmd_getCurrent_self s cid hn svc ct _ _ now

theorem aux_forHost_is_upsert (s : DBState) (cid hn svc ct rid : String)
    (sl : Option String) (now : Nat) :
    (createOrUpdateProfilingCommandForHost s cid hn svc ct rid sl now).1 = s
    ∨ ∃ rids cfg, (createOrUpdateProfilingCommandForHost s cid hn svc ct rid sl now).1
        = upsertCommandRow s cid hn svc ct rids cfg now := by
  unfold createOrUpdateProfilingCommandForHost
  cases s.requests.find? (fun r => r.request_id == rid) with
  | none => left; rfl
  | some req => right; exact ⟨_, _, rfl⟩

theorem aux_forHost_preserves_cid (s : DBState) (cid hn' svc ct rid : String)
    (sl : Option String) (now : Nat) (hn : String)
    (h : ∃ r, getCurrentProfilingCommand s hn svc = some r ∧ r.command_id = cid) :
    ∃ r, getCurrentProfilingCommand
        (createOrUpdateProfilingCommandForHost s cid hn' svc ct rid sl now).1 hn svc
      = some r ∧ r.command_id = cid := by
  rcases aux_forHost_is_upsert s cid hn' svc ct rid sl now with heq | ⟨rids, cfg, heq⟩
  · rw [heq]
    exact h
  · rw [heq]
    by_cases hhn : hn = hn'
    · subst hhn
      obtain ⟨r, hr, hrc, _⟩ := aux_upsertCmd_getCurrent_self s cid hn svc ct rids cfg now
      exact ⟨r, hr, hrc⟩
    · obtain ⟨r, hr, hrc⟩ := h
      refine ⟨r, ?_, hrc⟩
      rw [aux_upsertCmd_getCurrent_other s cid hn' svc ct rids cfg now hn hhn]
      exact hr

theorem aux_forHosts_requests (cid svc ct rid : String) (sl : Option String) (now : Nat)
    (hosts : List String) : ∀ (s : DBState) (b : Bool),
    (createOrUpdateForHosts s cid svc ct rid sl now hosts b).1.requests = s.requests := by
  induction hosts with
  | nil => intro s b; rfl
  | cons h hs ih =>
    intro s b
    unfold createOrUpdateForHosts
    rw [ih, aux_forHost_requests]

theorem aux_forHosts_preserves_cid (cid svc ct rid : String) (sl : Option String)
    (now : Nat) (hosts : List String) : ∀ (s : DBState) (b : Bool) (hn : String),
    (∃ r, getCurrentProfilingCommand s hn svc = some r ∧ r.command_id = cid) →
    ∃ r, getCurrentProfilingCommand
        (createOrUpdateForHosts s cid svc ct rid sl now hosts b).1 hn svc
      = some r ∧ r.command_id = cid := by
  induction hosts with
  | nil => intro s b hn h; exact h
  | cons h hs ih =>
    intro s b hn hh
    unfold createOrUpdateForHosts
    exact ih _ _ hn (aux_forHost_preserves_cid s cid h svc ct rid sl now hn hh)

theorem aux_forHosts_sets (cid svc ct rid : String) (sl : Option String) (now : Nat)
    (hosts : List String) : ∀ (s : DBState) (b : Bool),
    (s.requests.find? (fun r => r.request_id == rid)).isSome →
    ∀ hn ∈ hosts,
      ∃ r, getCurrentProfilingCommand
          (createOrUpdateForHosts s cid svc ct rid sl now hosts b).1 hn svc
        = some r ∧ r.command_id = cid := by
  induction hosts with
  | nil => intro s b _ hn hmem; exact absurd hmem (List.not_mem_nil hn)
  | cons h hs ih =>
    intro s b hreq hn hmem
    unfold createOrUpdateForHosts
    rcases List.mem_cons.mp hmem with heq | hmem'
    · subst heq
      have hset := aux_forHost_sets s cid hn svc ct rid sl now hreq
      obtain ⟨r, hr, hrc, _⟩ := hset
      exact aux_forHosts_preserves_cid cid svc ct rid sl now hs _ _ hn ⟨r, hr, hrc⟩
    · have hreq' : ((createOrUpdateProfilingCommandForHost s cid h svc ct rid sl
          now).1.requests.find? (fun r => r.request_id == rid)).isSome := by
        rw [aux_forHost_requests]
        exact hreq
      exact ih (createOrUpdateProfilingCommandForHost s cid h svc ct rid sl now).1
        (b && (createOrUpdateProfilingCommandForHost s cid h svc ct rid sl now).2)
        hreq' hn hmem'

theorem aux_getActiveHosts_eq_of_heartbeats {s' s : DBState}
    (h : s'.heartbeats = s.heartbeats) (svc : String) (now : Nat) :
    getActiveHosts s' svc now = getActiveHosts s svc now := by
  unfold getActiveHosts
  rw [h]

/-- Claim C9. A start request with no explicit target hosts allocates one
command id and `create_or_update_profiling_command` with `hostname = None`
(db_manager.py:1041-1049) writes that same id into the command row of every
active host of the service, so a command id does not uniquely identify one
`(host, service)` row; and with no active hosts the endpoint
(metrics_routes.py:355-365) still answers success with that id in
`command_ids` although no `ProfilingCommands` row carries it (the commands
table is unchanged). The pydantic validator that rejects an empty
`target_hosts` map belongs to the transport validation layer, which spec §1
scopes out. -/
theorem c9_fanout_shares_command_id (s : DBState) (cid svc rid : String) (sl : Option String) (now : Nat) :
    ((s.requests.find? (fun r => r.request_id == rid)).isSome →
      ∀ hn ∈ (getActiveHosts s svc now).map (fun h => h.hostname),
        ∃ r, getCurrentProfilingCommand
            (createOrUpdateProfilingCommand s cid none svc "start" rid sl now).1 hn svc
          = some r ∧ r.command_id = cid)
    ∧ (getActiveHosts s svc now = [] →
        createOrUpdateProfilingCommand s cid none svc "start" rid sl now = (s, true))
    ∧ (∀ rid2 u, getActiveHosts s svc now = [] →
        (createProfilingRequest s { service_name := svc, request_type := "start", target_hosts := [] } rid2 u now).2
          = Except.ok
              { success := true
                message := "Start profiling request submitted successfully for service '" ++ svc ++ "'"
                request_id := some rid2
                command_ids := some [u 0] }
        ∧ (createProfilingRequest s { service_name := svc, request_type := "start", target_hosts := [] } rid2 u now).1.commands = s.commands) := by
  refine ⟨?_, ?_, ?_⟩
  · intro hreq hn hmem
    unfold createOrUpdateProfilingCommand
    exact aux_forHosts_sets cid svc "start" rid sl now _ s true hreq hn hmem
  · intro hempty
    unfold createOrUpdateProfilingCommand
    rw [hempty]
    rfl
  · intro rid2 u hempty
    simp [createProfilingRequest, createProfilingRequestInner, saveProfilingRequest,
      createOrUpdateProfilingCommand]
    rw [aux_getActiveHosts_eq_of_heartbeats, hempty]
    · exact ⟨rfl, rfl⟩
    · rfl

/-- Claim C9, witness: in `fanState` hosts hA and hB are live for `svc`, and
after the fan-out both their rows carry command id CID9; in `auState` (no
heartbeats) the fan-out is a no-op returning success, and the endpoint
answers success with the allocated id while the commands table is
untouched. -/
theorem c9_fanout_shares_command_id_witness :
    (fanState.requests.find? (fun r => r.request_id == "R9")).isSome
    ∧ ("hA" ∈ (getActiveHosts fanState "svc" 1100).map (fun h => h.hostname)
        ∧ "hB" ∈ (getActiveHosts fanState "svc" 1100).map (fun h => h.hostname))
    ∧ (∃ r, getCurrentProfilingCommand
          (createOrUpdateProfilingCommand fanState "CID9" none "svc" "start" "R9" none 1100).1
          "hA" "svc" = some r ∧ r.command_id = "CID9")
    ∧ (∃ r, getCurrentProfilingCommand
          (createOrUpdateProfilingCommand fanState "CID9" none "svc" "start" "R9" none 1100).1
          "hB" "svc" = some r ∧ r.command_id = "CID9")
    ∧ createOrUpdateProfilingCommand auState "CID0" none "svc" "start" "RA" none 99
        = (auState, true)
    ∧ (createProfilingRequest auState
          { service_name := "svc", request_type := "start", target_hosts := [] }
          "R10" (uuidConst "C10") 99).2
        = Except.ok
            { success := true
              message := "Start profiling request submitted successfully for service 'svc'"
              request_id := some "R10"
              command_ids := some [uuidConst "C10" 0] } :=
  have h9 := c9_fanout_shares_command_id fanState "CID9" "svc" "R9" none 1100
  have h0 := c9_fanout_shares_command_id auState "CID0" "svc" "RA" none 99
  ⟨rfl, ⟨by decide, by decide⟩, h9.1 rfl "hA" (by decide), h9.1 rfl "hB" (by decide),
   h0.2.1 rfl, (h0.2.2 "R10" (uuidConst "C10") rfl).1⟩

theorem aux_updCmdStatus_noop (s : DBState) (cid hn : String) (st : CmdStatus)
    (et : Option Int) (em : Option String) (rp : Option String) (now : Nat)
    (hnokey : ∀ c ∈ s.commands, c.hostname = hn → c.command_id ≠ cid) :
    (updateProfilingCommandStatus s cid hn st et em rp now).1 = s := by
  unfold updateProfilingCommandStatus
  have hmap : s.commands.map (fun c =>
      if c.command_id == cid && c.hostname == hn then
        { c with
          status := st
          completed_at :=
            if st == .completed || st == .failed then some now else c.completed_at
          execution_time := et
          error_message := em
          results_path := rp }
      else c) = s.commands := by
    have h1 : ∀ c ∈ s.commands, (if c.command_id == cid && c.hostname == hn then
        { c with
          status := st
          completed_at :=
            if st == .completed || st == .failed then some now else c.completed_at
          execution_time := et
          error_message := em
          results_path := rp }
      else c) = id c := by
      intro c hc
      by_cases hh : c.hostname = hn
      · have hne : (c.command_id == cid) = false := by
          rw [beq_eq_false_iff_ne]
          exact hnokey c hc hh
        simp [hne]
      · have hne : (c.hostname == hn) = false := by
          rw [beq_eq_false_iff_ne]
          exact hh
        simp [hne]
    rw [List.map_congr_left h1, List.map_id]
  rw [hmap]

theorem aux_getByHostname_eq_of_commands {s' s : DBState} (h : s'.commands = s.commands)
    (hn : String) :
    getProfilingCommandByHostname s' hn = getProfilingCommandByHostname s hn := by
  unfold getProfilingCommandByHostname
  rw [h]

/-- Claim C7. A completion report whose command id was superseded — the
current command row for the hostname carries a different id, and since
supersession replaces the `(hostname, service)` row in place, no command
row of that hostname carries the reported id any more — updates only the
`ProfilingExecutions` row keyed `(command_id, hostname)` with the reported
status, completed_at, execution_time, error and results fields; the
commands table (in particular the current row) is unchanged because the
command UPDATE filters on `command_id AND hostname` (db_manager.py:
1433-1441), which matches nothing for that hostname — rows of other hosts
may still carry the id after a fan-out and are untouched by the keyed
UPDATE — and the request-status recomputation is skipped because the
handler detects the outdated id (metrics_routes.py:647-656). -/
theorem c7_superseded_completion_updates_only_execution (s : DBState) (comp : CompletionIn) (now : Nat) (e : ExecutionRow)
    (cur : CommandRow)
    (hvalid : s.executions.find?
        (fun x => x.command_id == comp.command_id && x.hostname == comp.hostname) = some e)
    (hassigned : e.status = "assigned")
    (hnokey : ∀ c ∈ s.commands, c.hostname = comp.hostname → c.command_id ≠ comp.command_id)
    (hcur : getProfilingCommandByHostname s comp.hostname = some cur)
    (hdiff : cur.command_id ≠ comp.command_id) :
    reportCommandCompletion s comp now
      = ({ s with executions := s.executions.map (fun x =>
            if x.command_id == comp.command_id && x.hostname == comp.hostname then
              { x with
                status := comp.status.toStr
                completed_at :=
                  if comp.status == .completed || comp.status == .failed then some now
                  else none
                error_message := comp.error_message
                execution_time := comp.execution_time
                results_path := comp.results_path }
            else x) },
         (true, "Command completion recorded for " ++ comp.command_id))
    ∧ (reportCommandCompletion s comp now).1.commands = s.commands
    ∧ (reportCommandCompletion s comp now).1.requests = s.requests := by
  have hb : (e.status != "assigned") = false := by simp [hassigned]
  have hs1 : (updateProfilingCommandStatus s comp.command_id comp.hostname comp.status
      comp.execution_time comp.error_message comp.results_path now).1 = s :=
    aux_updCmdStatus_noop s comp.command_id comp.hostname comp.status comp.execution_time
      comp.error_message comp.results_path now hnokey
  have hmain : reportCommandCompletion s comp now
      = ({ s with executions := s.executions.map (fun x =>
            if x.command_id == comp.command_id && x.hostname == comp.hostname then
              { x with
                status := comp.status.toStr
                completed_at :=
                  if comp.status == .completed || comp.status == .failed then some now
                  else none
                error_message := comp.error_message
                execution_time := comp.execution_time
                results_path := comp.results_path }
            else x) },
         (true, "Command completion recorded for " ++ comp.command_id)) := by
    unfold reportCommandCompletion validateCommandCompletionEligibility
    rw [hvalid]
    simp only [hb, Bool.false_eq_true, if_false, Bool.not_true, Bool.not_false, if_true]
    rw [hs1]
    unfold updateProfilingExecutionStatus
    have hby : getProfilingCommandByHostname
        ({ s with executions := s.executions.map (fun x =>
            if x.command_id == comp.command_id && x.hostname == comp.hostname then
              { x with
                status := comp.status.toStr
                completed_at :=
                  if comp.status == .completed || comp.status == .failed then some now
                  else none
                error_message := comp.error_message
                execution_time := comp.execution_time
                results_path := comp.results_path }
            else x) }) comp.hostname = some cur := by
      rw [aux_getByHostname_eq_of_commands rfl]
      exact hcur
    rw [hby]
    have hbne : (cur.command_id != comp.command_id) = true := by
      rw [bne_iff_ne]
      exact hdiff
    simp only [hbne, Bool.not_true, Bool.false_eq_true, if_false]
  refine ⟨hmain, ?_, ?_⟩ <;> rw [hmain]

/-- Claim C7, witness: in `complState` the execution row (A, h1) is
`assigned` while the current command for h1 is C; completing A rewrites only
that execution row (now `completed`, stamped at 9, with the reported
execution time and results path) and leaves commands and requests as they
were. -/
theorem c7_superseded_completion_updates_only_execution_witness :
    getProfilingCommandByHostname complState "h1"
      = some { hbCmd with command_id := "C", request_ids := ["RA"], status := .sent }
    ∧ reportCommandCompletion complState
        { command_id := "A", hostname := "h1", status := .completed,
          execution_time := some 12, results_path := some "s3p" } 9
      = ({ complState with executions :=
            [{ command_id := "A", hostname := "h1", profiling_request_id := "RA",
               status := "completed", started_at := 2, completed_at := some 9,
               error_message := none, execution_time := some 12, results_path := some "s3p" },
             { command_id := "B", hostname := "h1", profiling_request_id := "RA",
               status := "completed", started_at := 2 }] },
         (true, "Command completion recorded for A"))
    ∧ (reportCommandCompletion complState
        { command_id := "A", hostname := "h1", status := .completed,
          execution_time := some 12, results_path := some "s3p" } 9).1.requests
      = complState.requests :=
  have h := c7_superseded_completion_updates_only_execution complState
    { command_id := "A", hostname := "h1", status := .completed,
      execution_time := some 12, results_path := some "s3p" } 9
    { command_id := "A", hostname := "h1", profiling_request_id := "RA",
      status := "assigned", started_at := 2 }
    { hbCmd with command_id := "C", request_ids := ["RA"], status := .sent }
    rfl rfl (by decide) rfl (by decide)
  ⟨rfl, h.1, h.2.2⟩

theorem aux_getCurrent_after_liveness (s : DBState) (hb : HeartbeatIn) (ts : Nat)
    (hn svc : String) :
    getCurrentProfilingCommand
      (updateHeartbeatRelatedTables
        (upsertHostHeartbeat s hb.hostname hb.ip_address hb.service_name hb.last_command_id
          hb.status ts) hb.hostname hb.service_name) hn svc
      = getCurrentProfilingCommand s hn svc := by
  apply aux_getCurrent_eq_of_commands
  exact aux_upsertHB_commands s hb.hostname hb.ip_address hb.service_name hb.last_command_id
    hb.status ts

/-- Claim C3, amended: the heartbeat handler returns the command id and
payload of whatever command row exists for `(hostname, service)`, regardless
of its status — terminal statuses included — and returns nulls only when no
command row exists at all (metrics_routes.py:492-571 performs no status
check before answering; only the pending-to-sent transition is gated on the
status). -/
theorem c3_heartbeat_payload_ignores_status (s : DBState) (hb : HeartbeatIn) (now : Nat) :
    (∀ c, getCurrentProfilingCommand s hb.hostname hb.service_name = some c →
      (receiveHeartbeat s hb now).2 = heartbeatPayload c)
    ∧ (getCurrentProfilingCommand s hb.hostname hb.service_name = none →
      (receiveHeartbeat s hb now).2 = heartbeatNoCommand) := by
  constructor
  · intro c hc
    simp only [receiveHeartbeat]
    rw [aux_getCurrent_after_liveness, hc]
    rfl
  · intro hc
    simp only [receiveHeartbeat]
    rw [aux_getCurrent_after_liveness, hc]
    rfl

/-- Claim C3 (amended), witness: the completed command of `termState` is
still delivered with its id and payload, and a host with no command row at
all gets the null response. -/
theorem c3_heartbeat_payload_ignores_status_witness :
    getCurrentProfilingCommand termState "h1" "svc" = some { hbCmd with status := .completed }
    ∧ (receiveHeartbeat termState hbIn 7).2 = heartbeatPayload { hbCmd with status := .completed }
    ∧ getCurrentProfilingCommand auState "h9" "svc" = none
    ∧ (receiveHeartbeat auState { hbIn with hostname := "h9" } 7).2 = heartbeatNoCommand :=
  have h1 := c3_heartbeat_payload_ignores_status termState hbIn 7
  have h2 := c3_heartbeat_payload_ignores_status auState { hbIn with hostname := "h9" } 7
  ⟨rfl, h1.1 { hbCmd with status := .completed } rfl, rfl, h2.2 rfl⟩

theorem aux_markAssigned_key (rid cid hn : String) (now : Nat) (a b : String) :
    ∀ x : ExecutionRow,
    ((fun y : ExecutionRow => y.command_id == a && y.hostname == b)
      (if x.command_id == cid && x.hostname == hn then
        { x with profiling_request_id := rid, status := "assigned", started_at := now }
      else x))
    = (x.command_id == a && x.hostname == b) := by
  intro x
  by_cases hx : (x.command_id == cid && x.hostname == hn) = true
  · simp [hx]
  · simp [hx]

theorem aux_execKeyCount_zero_of_not_any (s : DBState) (cid hn : String)
    (h : s.executions.any (fun e => e.command_id == cid && e.hostname == hn) = false) :
    execKeyCount s cid hn = 0 := by
  unfold execKeyCount
  rw [List.length_eq_zero]
  apply List.filter_eq_nil_iff.mpr
  intro x hx
  intro hpx
  have hc : s.executions.any (fun e => e.command_id == cid && e.hostname == hn) = true :=
    List.any_eq_true.mpr ⟨x, hx, hpx⟩
  rw [h] at hc
  exact absurd hc (by simp)

theorem aux_markAssigned_count_le (s : DBState) (rid cid hn : String) (now : Nat)
    (h : execKeyCount s cid hn ≤ 1) :
    execKeyCount (markProfilingRequestAssigned s rid cid hn now).1 cid hn ≤ 1 := by
  unfold markProfilingRequestAssigned
  by_cases hany : s.executions.any (fun e => e.command_id == cid && e.hostname == hn) = true
  · rw [if_pos hany]
    show (List.filter _ (List.map _ s.executions)).length ≤ 1
    rw [aux_filter_map_length _ _ _ (aux_markAssigned_key rid cid hn now cid hn)]
    exact h
  · have hany' : s.executions.any (fun e => e.command_id == cid && e.hostname == hn) = false :=
      Bool.eq_false_iff.mpr hany
    rw [if_neg (by simp [hany'])]
    show (List.filter _ (s.executions ++ _)).length ≤ 1
    rw [List.filter_append, List.length_append]
    have h0 : execKeyCount s cid hn = 0 := aux_execKeyCount_zero_of_not_any s cid hn hany'
    unfold execKeyCount at h0
    rw [h0]
    simp

theorem aux_markAssigned_exists (s : DBState) (rid cid hn : String) (now : Nat) :
    ∃ e, (markProfilingRequestAssigned s rid cid hn now).1.executions.find?
        (fun x => x.command_id == cid && x.hostname == hn) = some e
      ∧ e.status = "assigned" := by
  unfold markProfilingRequestAssigned
  by_cases hany : s.executions.any (fun e => e.command_id == cid && e.hostname == hn) = true
  · rw [if_pos hany]
    obtain ⟨e0, he0mem, he0p⟩ := List.any_eq_true.mp hany
    have hfind : (s.executions.find? (fun x => x.command_id == cid && x.hostname == hn)).isSome := by
      rw [List.find?_isSome]
      exact ⟨e0, he0mem, he0p⟩
    obtain ⟨e1, he1⟩ := Option.isSome_iff_exists.mp hfind
    have he1p : (e1.command_id == cid && e1.hostname == hn) = true := by
      simpa using List.find?_some he1
    refine ⟨{ e1 with profiling_request_id := rid, status := "assigned", started_at := now },
      ?_, rfl⟩
    show (List.map _ s.executions).find? _ = _
    rw [aux_find?_map _ _ _ (aux_markAssigned_key rid cid hn now cid hn), he1]
    simp only [Option.map_some']
    rw [if_pos he1p]
  · have hany' : s.executions.any (fun e => e.command_id == cid && e.hostname == hn) = false :=
      Bool.eq_false_iff.mpr hany
    rw [if_neg (by simp [hany'])]
    have hnone : s.executions.find? (fun x => x.command_id == cid && x.hostname == hn) = none := by
      apply List.find?_eq_none.mpr
      intro x hx
      cases hxp : (x.command_id == cid && x.hostname == hn)
      · simp
      · have hc : s.executions.any (fun e => e.command_id == cid && e.hostname == hn) = true :=
          List.any_eq_true.mpr ⟨x, hx, hxp⟩
        rw [hany'] at hc
        exact absurd hc (by simp)
    refine ⟨{ command_id := cid, hostname := hn, profiling_request_id := rid, status := "assigned", started_at := now }, ?_, rfl⟩
    show (s.executions ++ _).find? _ = _
    rw [List.find?_append, hnone]
    simp

theorem aux_markRequestsAssigned_count_le (cid hn : String) (now : Nat)
    (rids : List String) : ∀ s : DBState, execKeyCount s cid hn ≤ 1 →
    execKeyCount (markRequestsAssigned cid hn now rids s) cid hn ≤ 1 := by
  induction rids with
  | nil => intro s h; exact h
  | cons r rs ih =>
    intro s h
    unfold markRequestsAssigned
    exact ih _ (aux_markAssigned_count_le s r cid hn now h)

theorem aux_markRequestsAssigned_exists (cid hn : String) (now : Nat) (rids : List String)
    (hne : rids ≠ []) : ∀ s : DBState,
    ∃ e, (markRequestsAssigned cid hn now rids s).executions.find?
        (fun x => x.command_id == cid && x.hostname == hn) = some e
      ∧ e.status = "assigned" := by
  induction rids with
  | nil => exact absurd rfl hne
  | cons r rs ih =>
    intro s
    unfold markRequestsAssigned
    cases hrs : rs with
    | nil =>
      show ∃ e, (markRequestsAssigned cid hn now [] _).executions.find? _ = some e ∧ _
      unfold markRequestsAssigned
      exact aux_markAssigned_exists s r cid hn now
    | cons r2 rs2 =>
      subst hrs
      exact ih (by simp) _

theorem aux_execKeyCount_eq_of_executions {s' s : DBState}
    (h : s'.executions = s.executions) (cid hn : String) :
    execKeyCount s' cid hn = execKeyCount s cid hn := by
  unfold execKeyCount
  rw [h]

theorem aux_heartbeat_step_not_pending (s : DBState) (hb : HeartbeatIn) (t : Nat)
    (c : CommandRow)
    (hc : getCurrentProfilingCommand s hb.hostname hb.service_name = some c)
    (hst : (c.status == CmdStatus.pending) = false) :
    (receiveHeartbeat s hb t).1.commands = s.commands
    ∧ (receiveHeartbeat s hb t).1.executions = s.executions
    ∧ (receiveHeartbeat s hb t).2 = heartbeatPayload c := by
  simp only [receiveHeartbeat]
  rw [aux_getCurrent_after_liveness, hc]
  simp only [hst, Bool.false_eq_true, if_false]
  exact ⟨aux_upsertHB_commands s hb.hostname hb.ip_address hb.service_name hb.last_command_id
      hb.status (hb.timestamp.getD t),
    aux_upsertHB_executions s hb.hostname hb.ip_address hb.service_name hb.last_command_id
      hb.status (hb.timestamp.getD t), rfl⟩

theorem aux_markSent_key (cid hn : String) (now : Nat) (a b : String) :
    ∀ x : CommandRow,
    ((fun y : CommandRow => y.hostname == a && y.service_name == b)
      (if x.command_id == cid && x.hostname == hn then
        { x with status := CmdStatus.sent, sent_at := some now }
      else x))
    = (x.hostname == a && x.service_name == b) := by
  intro x
  by_cases hx : (x.command_id == cid && x.hostname == hn) = true
  · simp [hx]
  · simp [hx]

theorem aux_heartbeat_step_pending (s : DBState) (hb : HeartbeatIn) (t : Nat)
    (c : CommandRow)
    (hc : getCurrentProfilingCommand s hb.hostname hb.service_name = some c)
    (hst : (c.status == CmdStatus.pending) = true) :
    getCurrentProfilingCommand (receiveHeartbeat s hb t).1 hb.hostname hb.service_name
        = some { c with status := CmdStatus.sent, sent_at := some t }
    ∧ (receiveHeartbeat s hb t).2 = heartbeatPayload c
    ∧ (execKeyCount s c.command_id hb.hostname ≤ 1 →
        execKeyCount (receiveHeartbeat s hb t).1 c.command_id hb.hostname ≤ 1)
    ∧ (c.request_ids ≠ [] →
        ∃ e, (receiveHeartbeat s hb t).1.executions.find?
            (fun x => x.command_id == c.command_id && x.hostname == hb.hostname) = some e
          ∧ e.status = "assigned") := by
  have hckey : (c.hostname == hb.hostname && c.service_name == hb.service_name) = true := by
    simpa using List.find?_some hc
  have hchn : (c.hostname == hb.hostname) = true := by
    have := hckey
    simp only [Bool.and_eq_true] at this
    simp [this.1]
  have hcondc : (c.command_id == c.command_id && c.hostname == hb.hostname) = true := by
    simp [hchn]
  have hrw : receiveHeartbeat s hb t
      = (markRequestsAssigned c.command_id hb.hostname t c.request_ids
          (markProfilingCommandSent
            (updateHeartbeatRelatedTables
              (upsertHostHeartbeat s hb.hostname hb.ip_address hb.service_name
                hb.last_command_id hb.status (hb.timestamp.getD t))
              hb.hostname hb.service_name)
            c.command_id hb.hostname t).1,
         heartbeatPayload c) := by
    simp only [receiveHeartbeat]
    rw [aux_getCurrent_after_liveness, hc]
    simp only [hst, if_true]
    rfl
  rw [hrw]
  have hlivecmds : (upsertHostHeartbeat s hb.hostname hb.ip_address hb.service_name
      hb.last_command_id hb.status (hb.timestamp.getD t)).commands = s.commands :=
    aux_upsertHB_commands s hb.hostname hb.ip_address hb.service_name hb.last_command_id
      hb.status (hb.timestamp.getD t)
  have hliveexecs : (upsertHostHeartbeat s hb.hostname hb.ip_address hb.service_name
      hb.last_command_id hb.status (hb.timestamp.getD t)).executions = s.executions :=
    aux_upsertHB_executions s hb.hostname hb.ip_address hb.service_name hb.last_command_id
      hb.status (hb.timestamp.getD t)
  refine ⟨?_, rfl, ?_, ?_⟩
  · rw [aux_getCurrent_eq_of_commands (aux_markRequestsAssigned_commands c.command_id
      hb.hostname t c.request_ids _)]
    show List.find? _ (List.map _ _) = _
    simp only [updateHeartbeatRelatedTables]
    rw [hlivecmds]
    have hc' : List.find? (fun x : CommandRow =>
        x.hostname == hb.hostname && x.service_name == hb.service_name) s.commands = some c := hc
    rw [aux_find?_map _ _ _ (aux_markSent_key c.command_id hb.hostname t hb.hostname
      hb.service_name), hc']
    simp only [Option.map_some']
    rw [if_pos hcondc]
  · intro hcnt
    apply aux_markRequestsAssigned_count_le
    rw [aux_execKeyCount_eq_of_executions (show (markProfilingCommandSent _ c.command_id
      hb.hostname t).1.executions = s.executions from by
        rw [aux_markSent_executions]
        exact hliveexecs)]
    exact hcnt
  · intro hne
    exact aux_markRequestsAssigned_exists c.command_id hb.hostname t c.request_ids hne _

theorem aux_heartbeatRuns_stable (hb : HeartbeatIn) (ts : List Nat) :
    ∀ (s : DBState) (c : CommandRow),
    getCurrentProfilingCommand s hb.hostname hb.service_name = some c →
    (c.status == CmdStatus.pending) = false →
    (heartbeatRuns hb ts s).1.commands = s.commands
    ∧ (heartbeatRuns hb ts s).1.executions = s.executions
    ∧ ∀ r ∈ (heartbeatRuns hb ts s).2, r = heartbeatPayload c := by
  induction ts with
  | nil =>
    intro s c _ _
    exact ⟨rfl, rfl, by intro r hr; exact absurd hr (List.not_mem_nil r)⟩
  | cons t ts ih =>
    intro s c hc hst
    obtain ⟨hcmds, hexecs, hresp⟩ := aux_heartbeat_step_not_pending s hb t c hc hst
    have hc1 : getCurrentProfilingCommand (receiveHeartbeat s hb t).1 hb.hostname
        hb.service_name = some c := by
      rw [aux_getCurrent_eq_of_commands hcmds]
      exact hc
    obtain ⟨ihcmds, ihexecs, ihresp⟩ := ih (receiveHeartbeat s hb t).1 c hc1 hst
    unfold heartbeatRuns
    refine ⟨by rw [ihcmds, hcmds], by rw [ihexecs, hexecs], ?_⟩
    intro r hr
    rcases List.mem_cons.mp hr with heq | hmem
    · rw [heq]
      exact hresp
    · exact ihresp r hmem

/-- Claim C2. Repeating the heartbeat for the same `(hostname, service)`
while the current command is not superseded returns the same command id and
payload on every call and leaves at most one `ProfilingExecutions` row keyed
`(command_id, hostname)`: the first heartbeat that finds the command pending
marks it sent (metrics_routes.py:499-503) and upserts the execution rows —
all under conflict on the `(command_id, hostname)` primary key
(db_manager.py:714-723) — and every later heartbeat finds the command `sent`,
skips the writes, and answers with the identical payload
(metrics_routes.py:497-559). -/
theorem c2_heartbeat_redelivery_idempotent (s : DBState) (hb : HeartbeatIn) (t : Nat) (ts : List Nat) (c : CommandRow)
    (hc : getCurrentProfilingCommand s hb.hostname hb.service_name = some c)
    (hcnt : execKeyCount s c.command_id hb.hostname ≤ 1) :
    (receiveHeartbeat s hb t).2 = heartbeatPayload c
    ∧ (∀ r ∈ (heartbeatRuns hb ts (receiveHeartbeat s hb t).1).2, r = heartbeatPayload c)
    ∧ (heartbeatRuns hb ts (receiveHeartbeat s hb t).1).1.executions
        = (receiveHeartbeat s hb t).1.executions
    ∧ (heartbeatRuns hb ts (receiveHeartbeat s hb t).1).1.commands
        = (receiveHeartbeat s hb t).1.commands
    ∧ execKeyCount (receiveHeartbeat s hb t).1 c.command_id hb.hostname ≤ 1
    ∧ ((c.status == CmdStatus.pending) = true →
        getCurrentProfilingCommand (receiveHeartbeat s hb t).1 hb.hostname hb.service_name
          = some { c with status := CmdStatus.sent, sent_at := some t })
    ∧ ((c.status == CmdStatus.pending) = true → c.request_ids ≠ [] →
        ∃ e, (receiveHeartbeat s hb t).1.executions.find?
            (fun x => x.command_id == c.command_id && x.hostname == hb.hostname) = some e
          ∧ e.status = "assigned") := by
  cases hst : (c.status == CmdStatus.pending) with
  | true =>
    obtain ⟨hc1, hresp, hcount, hexists⟩ := aux_heartbeat_step_pending s hb t c hc hst
    have hst1 : (({ c with status := CmdStatus.sent, sent_at := some t } : CommandRow).status
        == CmdStatus.pending) = false := rfl
    obtain ⟨scmds, sexecs, sresp⟩ := aux_heartbeatRuns_stable hb ts (receiveHeartbeat s hb t).1
      { c with status := CmdStatus.sent, sent_at := some t } hc1 hst1
    refine ⟨hresp, ?_, sexecs, scmds, hcount hcnt, fun _ => hc1, fun _ => hexists⟩
    intro r hr
    exact sresp r hr
  | false =>
    obtain ⟨hcmds, hexecs, hresp⟩ := aux_heartbeat_step_not_pending s hb t c hc hst
    have hc1 : getCurrentProfilingCommand (receiveHeartbeat s hb t).1 hb.hostname
        hb.service_name = some c := by
      rw [aux_getCurrent_eq_of_commands hcmds]
      exact hc
    obtain ⟨scmds, sexecs, sresp⟩ := aux_heartbeatRuns_stable hb ts (receiveHeartbeat s hb t).1
      c hc1 hst
    refine ⟨hresp, sresp, sexecs, scmds, ?_, ?_, ?_⟩
    · rw [aux_execKeyCount_eq_of_executions hexecs]
      exact hcnt
    · intro hpend
      exact absurd hpend (by simp)
    · intro hpend
      exact absurd hpend (by simp)

/-- Claim C2, witness: in `hbState` the pending command A on `(h1, svc)` is
delivered at time 5 and redelivered unchanged at times 6 and 7; the
executions table stabilizes after the first call with at most one row keyed
(A, h1), and that row is `assigned`. -/
theorem c2_heartbeat_redelivery_idempotent_witness :
    getCurrentProfilingCommand hbState "h1" "svc" = some hbCmd
    ∧ execKeyCount hbState "A" "h1" ≤ 1
    ∧ (receiveHeartbeat hbState hbIn 5).2 = heartbeatPayload hbCmd
    ∧ (∀ r ∈ (heartbeatRuns hbIn [6, 7] (receiveHeartbeat hbState hbIn 5).1).2,
        r = heartbeatPayload hbCmd)
    ∧ (heartbeatRuns hbIn [6, 7] (receiveHeartbeat hbState hbIn 5).1).1.executions
        = (receiveHeartbeat hbState hbIn 5).1.executions
    ∧ execKeyCount (receiveHeartbeat hbState hbIn 5).1 "A" "h1" ≤ 1
    ∧ (∃ e, (receiveHeartbeat hbState hbIn 5).1.executions.find?
          (fun x => x.command_id == "A" && x.hostname == "h1") = some e
        ∧ e.status = "assigned") :=
  have h := c2_heartbeat_redelivery_idempotent hbState hbIn 5 [6, 7] hbCmd rfl (by decide)
  ⟨rfl, by decide, h.1, h.2.1, h.2.2.1, h.2.2.2.2.1,
    h.2.2.2.2.2.2 rfl (by decide)⟩
